import Mathlib

/-!
# Immunization record builder — formal model

A shallow embedding of the two bundle builders of this repository:

* `App` — the immunization record builder (`src/App.js`): form state is
  validated (`validateBeforeBuild`) and assembled into a FHIR document
  bundle (`onBuildBundle`) holding a Composition, Patient, Practitioner,
  optional Encounter/Organization, Immunization resources, an optional
  ImmunizationRecommendation and DocumentReference/Binary pairs.
* `Wg` — the diagnostic-report builder (`src/DiagnosticReportForm.js`):
  `buildBundle` with its throw-style required-field checks.

JavaScript strings are modelled by `String`, with `""` standing for an
absent/falsy field.  `Date` values are modelled by `Int` seconds since the
epoch; the engine's calendar arithmetic (`getFullYear`, `toISOString`,
local-time parsing) is modelled by the proleptic-Gregorian conversions
`daysFromYmd` / `ymdFromDays` / `secondsFromCivil` / `civilFromSeconds`
below, and the execution environment (current instant, local UTC offset,
engine datetime parser) by `JsEnv`.  `uuidv4` produces a fresh random
identifier on each call; the successive values it returns are modelled by
an identifier supply `ids : Nat → String`, consumed in call order.
-/

/-! ## Calendar model (the JS `Date` engine's civil arithmetic)

Days are counted from 1970-01-01.  The day count is decomposed
era (400 y) / century / quadrennium / year, with the shifted (March-first)
month encoding, which is equivalent to the standard days-from-civil
algorithm and inverts layer by layer. -/

def daysInMonth (y m : Int) : Int :=
  if m = 2 then
    (if y % 4 = 0 ∧ (y % 100 ≠ 0 ∨ y % 400 = 0) then 29 else 28)
  else if m = 4 ∨ m = 6 ∨ m = 9 ∨ m = 11 then 30 else 31

def daysFromYmd (y m d : Int) : Int :=
  let y' := if m ≤ 2 then y - 1 else y
  let era := y' / 400
  let yoe := y' - 400 * era
  let c := yoe / 100
  let ce := yoe % 100
  let q := ce / 4
  let yr := ce % 4
  let mp := (m + 9) % 12
  let doy := (153 * mp + 2) / 5 + d - 1
  146097 * era + 36524 * c + 1461 * q + 365 * yr + doy - 719468

def eraOf (z : Int) : Int := (z + 719468) / 146097
def zoeOf (z : Int) : Int := (z + 719468) - 146097 * eraOf z
def cOf (z : Int) : Int := min 3 (zoeOf z / 36524)
def coeOf (z : Int) : Int := zoeOf z - 36524 * cOf z
def qOf (z : Int) : Int := min 24 (coeOf z / 1461)
def qoeOf (z : Int) : Int := coeOf z - 1461 * qOf z
def yrOf (z : Int) : Int := min 3 (qoeOf z / 365)
def doyOf (z : Int) : Int := qoeOf z - 365 * yrOf z
def mpOf (z : Int) : Int := (5 * doyOf z + 2) / 153
def mOf (z : Int) : Int := if mpOf z < 10 then mpOf z + 3 else mpOf z - 9
def dOf (z : Int) : Int := doyOf z - (153 * mpOf z + 2) / 5 + 1
def yOf (z : Int) : Int :=
  400 * eraOf z + 100 * cOf z + 4 * qOf z + yrOf z + (if mOf z ≤ 2 then 1 else 0)

def ymdFromDays (z : Int) : Int × Int × Int := (yOf z, mOf z, dOf z)

/-- Structural decode: the era/century/quad/year layers invert exactly. -/
theorem decode_struct (era c q yr doy : Int)
    (hc : 0 ≤ c ∧ c ≤ 3) (hq : 0 ≤ q ∧ q ≤ 24) (hyr : 0 ≤ yr ∧ yr ≤ 3)
    (hdoy : 0 ≤ doy ∧ doy ≤ 365)
    (h365 : doy = 365 → yr = 3 ∧ (q ≤ 23 ∨ c = 3)) :
    eraOf (146097 * era + 36524 * c + 1461 * q + 365 * yr + doy - 719468) = era ∧
    cOf (146097 * era + 36524 * c + 1461 * q + 365 * yr + doy - 719468) = c ∧
    qOf (146097 * era + 36524 * c + 1461 * q + 365 * yr + doy - 719468) = q ∧
    yrOf (146097 * era + 36524 * c + 1461 * q + 365 * yr + doy - 719468) = yr ∧
    doyOf (146097 * era + 36524 * c + 1461 * q + 365 * yr + doy - 719468) = doy := by
  have h1 : eraOf (146097 * era + 36524 * c + 1461 * q + 365 * yr + doy - 719468) = era := by
    unfold eraOf; omega
  have h2 : zoeOf (146097 * era + 36524 * c + 1461 * q + 365 * yr + doy - 719468)
      = 36524 * c + 1461 * q + 365 * yr + doy := by
    unfold zoeOf; omega
  have h3 : cOf (146097 * era + 36524 * c + 1461 * q + 365 * yr + doy - 719468) = c := by
    unfold cOf; rw [h2]; omega
  have h4 : coeOf (146097 * era + 36524 * c + 1461 * q + 365 * yr + doy - 719468)
      = 1461 * q + 365 * yr + doy := by
    unfold coeOf; rw [h2, h3]; ring
  have h5 : qOf (146097 * era + 36524 * c + 1461 * q + 365 * yr + doy - 719468) = q := by
    unfold qOf; rw [h4]; omega
  have h6 : qoeOf (146097 * era + 36524 * c + 1461 * q + 365 * yr + doy - 719468)
      = 365 * yr + doy := by
    unfold qoeOf; rw [h4, h5]; ring
  have h7 : yrOf (146097 * era + 36524 * c + 1461 * q + 365 * yr + doy - 719468) = yr := by
    unfold yrOf; rw [h6]; omega
  have h8 : doyOf (146097 * era + 36524 * c + 1461 * q + 365 * yr + doy - 719468) = doy := by
    unfold doyOf; rw [h6, h7]; ring
  exact ⟨h1, h3, h5, h7, h8⟩

/-- Shifted-month lengths: mp 0 = March, ..., mp 11 = February. -/
def mpLen (mp : Int) : Int :=
  if mp = 11 then 29 else if mp = 1 ∨ mp = 3 ∨ mp = 6 ∨ mp = 8 then 30 else 31

/-- Month decode: day-of-shifted-year inverts to (month, day). -/
theorem decode_month (mp d : Int) (hmp : 0 ≤ mp ∧ mp ≤ 11) (h1 : 1 ≤ d)
    (hdim : d ≤ mpLen mp) :
    (5 * ((153 * mp + 2) / 5 + d - 1) + 2) / 153 = mp ∧
    0 ≤ (153 * mp + 2) / 5 + d - 1 ∧ (153 * mp + 2) / 5 + d - 1 ≤ 365 ∧
    ((153 * mp + 2) / 5 + d - 1 = 365 → mp = 11 ∧ d = 29) := by
  obtain ⟨hl, hr⟩ := hmp
  unfold mpLen at hdim
  interval_cases mp <;> simp_all <;> omega

/-- Full decode at the shifted-component level. -/
theorem decode_full (era c q yr mp d : Int)
    (hc : 0 ≤ c ∧ c ≤ 3) (hq : 0 ≤ q ∧ q ≤ 24) (hyr : 0 ≤ yr ∧ yr ≤ 3)
    (hmp : 0 ≤ mp ∧ mp ≤ 11) (hd : 1 ≤ d) (hdim : d ≤ mpLen mp)
    (hfeb : mp = 11 → d = 29 → yr = 3 ∧ (q ≤ 23 ∨ c = 3)) :
    ymdFromDays (146097 * era + 36524 * c + 1461 * q + 365 * yr
        + ((153 * mp + 2) / 5 + d - 1) - 719468)
      = (400 * era + 100 * c + 4 * q + yr + (if 10 ≤ mp then 1 else 0),
         if mp < 10 then mp + 3 else mp - 9, d) := by
  obtain ⟨hmx, h0, h365b, h365⟩ := decode_month mp d hmp hd hdim
  have e := decode_struct era c q yr ((153 * mp + 2) / 5 + d - 1) hc hq hyr
    ⟨h0, h365b⟩ (fun h => hfeb (h365 h).1 (h365 h).2)
  unfold ymdFromDays yOf mOf dOf mpOf
  rw [e.1, e.2.1, e.2.2.1, e.2.2.2.1, e.2.2.2.2, hmx]
  simp only [Prod.mk.injEq]
  exact ⟨by split_ifs <;> omega, trivial, by omega⟩

theorem ymd_roundtrip (y m d : Int) (h1 : 1 ≤ m) (h2 : m ≤ 12)
    (h3 : 1 ≤ d) (h4 : d ≤ daysInMonth y m) :
    ymdFromDays (daysFromYmd y m d) = (y, m, d) := by
  have hz : daysFromYmd y m d
      = 146097 * ((if m ≤ 2 then y - 1 else y) / 400)
        + 36524 * (((if m ≤ 2 then y - 1 else y)
            - 400 * ((if m ≤ 2 then y - 1 else y) / 400)) / 100)
        + 1461 * ((((if m ≤ 2 then y - 1 else y)
            - 400 * ((if m ≤ 2 then y - 1 else y) / 400)) % 100) / 4)
        + 365 * ((((if m ≤ 2 then y - 1 else y)
            - 400 * ((if m ≤ 2 then y - 1 else y) / 400)) % 100) % 4)
        + ((153 * ((m + 9) % 12) + 2) / 5 + d - 1) - 719468 := rfl
  have hdim : d ≤ mpLen ((m + 9) % 12) := by
    unfold daysInMonth at h4
    unfold mpLen
    split_ifs at h4 ⊢ <;> omega
  have hfeb : (m + 9) % 12 = 11 → d = 29 →
      (((if m ≤ 2 then y - 1 else y)
          - 400 * ((if m ≤ 2 then y - 1 else y) / 400)) % 100) % 4 = 3 ∧
      (((((if m ≤ 2 then y - 1 else y)
          - 400 * ((if m ≤ 2 then y - 1 else y) / 400)) % 100) / 4) ≤ 23 ∨
       (((if m ≤ 2 then y - 1 else y)
          - 400 * ((if m ≤ 2 then y - 1 else y) / 400)) / 100) = 3) := by
    intro hmp11 hd29
    have hm2 : m = 2 := by omega
    subst hm2
    norm_num [daysInMonth] at h4
    norm_num
    split_ifs at h4 with hleap
    · omega
    · omega
  have key := decode_full ((if m ≤ 2 then y - 1 else y) / 400)
    (((if m ≤ 2 then y - 1 else y) - 400 * ((if m ≤ 2 then y - 1 else y) / 400)) / 100)
    ((((if m ≤ 2 then y - 1 else y) - 400 * ((if m ≤ 2 then y - 1 else y) / 400)) % 100) / 4)
    ((((if m ≤ 2 then y - 1 else y) - 400 * ((if m ≤ 2 then y - 1 else y) / 400)) % 100) % 4)
    ((m + 9) % 12) d
    (by constructor <;> omega) (by constructor <;> omega) (by constructor <;> omega)
    (by constructor <;> omega) h3 hdim hfeb
  rw [hz, key]
  simp only [Prod.mk.injEq]
  refine ⟨?_, ?_, trivial⟩ <;> split_ifs <;> omega

/-- A civil (wall-clock) datetime, as read off the JS `Date` accessors
(`getFullYear`, 1-based month, `getDate`, `getHours`, …). -/
structure Civil where
  year : Int
  month : Int
  day : Int
  hour : Int
  minute : Int
  second : Int
deriving DecidableEq, Repr

def Civil.Valid (c : Civil) : Prop :=
  1 ≤ c.month ∧ c.month ≤ 12 ∧ 1 ≤ c.day ∧ c.day ≤ daysInMonth c.year c.month ∧
  0 ≤ c.hour ∧ c.hour ≤ 23 ∧ 0 ≤ c.minute ∧ c.minute ≤ 59 ∧
  0 ≤ c.second ∧ c.second ≤ 59

instance (c : Civil) : Decidable c.Valid := by
  unfold Civil.Valid; infer_instance

def secondsFromCivil (c : Civil) : Int :=
  86400 * daysFromYmd c.year c.month c.day
    + 3600 * c.hour + 60 * c.minute + c.second

def civilFromSeconds (t : Int) : Civil :=
  let ymd := ymdFromDays (t / 86400)
  ⟨ymd.1, ymd.2.1, ymd.2.2, t % 86400 / 3600, t % 86400 % 3600 / 60, t % 86400 % 60⟩

theorem civil_roundtrip (c : Civil) (h : c.Valid) :
    civilFromSeconds (secondsFromCivil c) = c := by
  obtain ⟨h1, h2, h3, h4, h5, h6, h7, h8, h9, h10⟩ := h
  have hdays : secondsFromCivil c / 86400 = daysFromYmd c.year c.month c.day := by
    unfold secondsFromCivil; omega
  have hsod : secondsFromCivil c % 86400 = 3600 * c.hour + 60 * c.minute + c.second := by
    unfold secondsFromCivil; omega
  unfold civilFromSeconds
  rw [hdays, hsod, ymd_roundtrip c.year c.month c.day h1 h2 h3 h4]
  cases c
  simp only [Civil.mk.injEq]
  refine ⟨trivial, trivial, trivial, ?_, ?_, ?_⟩ <;> simp_all <;> omega

/-! ## The execution environment and shared JS string helpers -/

/-- The JS execution environment: the current instant (whole seconds since
the epoch; the builders never surface sub-second precision from inputs),
the local UTC offset in minutes east (so `getTimezoneOffset()` is `-tzo`),
and the engine's parser for datetime strings containing `"T"` (used only
for `Immunization.occurrenceDate` values, whose rendering no claim
inspects). -/
structure JsEnv where
  tzo : Int
  now : Int
  parseDT : String → Int

/-- `s.padStart(n, "0")`. -/
def padStartZeros (n : Nat) (s : String) : String :=
  if s.length < n then String.mk (List.replicate (n - s.length) '0') ++ s else s

/-- `String(v)` for a JS number that is a nonnegative integer after
`Math.abs(Math.floor(·))`, then `.padStart(2, "0")` — the `pad` helper of
`isoWithLocalOffsetFromDate`. -/
def jsPad (n : Int) : String := padStartZeros 2 (toString n.natAbs)

/-- Model of `String.prototype.toLowerCase` (per-character lowering). -/
def jsToLowerCase (s : String) : String := String.mk (s.data.map Char.toLower)

/-- First character, modelling single-character `startsWith` tests. -/
def strHead (s : String) : Option Char := s.data.head?

/-- JS `a || b` on strings (first truthy, i.e. first non-empty). -/
def jsOr (a b : String) : String := if a = "" then b else a

/-- Model of the regex test `/^\d{4}-\d{2}-\d{2}$/.test s`. -/
def isYyyyMmDd (s : String) : Bool :=
  match s.data with
  | [a, b, c, d, e, f, g, h, i, j] =>
    a.isDigit && b.isDigit && c.isDigit && d.isDigit && e = '-' &&
    f.isDigit && g.isDigit && h = '-' && i.isDigit && j.isDigit
  | _ => false

def digitVal (ch : Char) : Int := Int.ofNat ch.toNat - 48

/-- Reads the `(year, month, day)` of a `YYYY-MM-DD` string (the engine's
parse of such a date after the shape test has succeeded). -/
def parseYmdDigits (s : String) : Option (Int × Int × Int) :=
  match s.data with
  | [a, b, c, d, _, e, f, _, g, h] =>
    some (1000 * digitVal a + 100 * digitVal b + 10 * digitVal c + digitVal d,
          10 * digitVal e + digitVal f, 10 * digitVal g + digitVal h)
  | _ => none

/-- `Date.prototype.toISOString` (UTC components; all modelled instants
are whole seconds, so the milliseconds field is `000`). -/
def jsToISOString (t : Int) : String :=
  let u := civilFromSeconds t
  padStartZeros 4 (toString u.year.natAbs) ++ "-" ++ jsPad u.month ++ "-" ++
    jsPad u.day ++ "T" ++ jsPad u.hour ++ ":" ++ jsPad u.minute ++ ":" ++
    jsPad u.second ++ ".000Z"

/-- `String.prototype.replace` with a plain-string pattern: replace the
first occurrence only. -/
def replaceFirst (pat rep : List Char) : List Char → List Char
  | [] => []
  | c :: rest =>
    if pat.isPrefixOf (c :: rest) then rep ++ (c :: rest).drop pat.length
    else c :: replaceFirst pat rep rest

def jsReplace (s pat rep : String) : String :=
  String.mk (replaceFirst pat.data rep.data s.data)

/-- `String.prototype.trim` (whitespace stripped from both ends). -/
def jsTrim (s : String) : String :=
  String.mk (((s.data.dropWhile Char.isWhitespace).reverse.dropWhile
    Char.isWhitespace).reverse)

/-- `s.includes(c)` for a single-character needle. -/
def jsIncludes (s : String) (c : Char) : Bool := s.data.contains c

def splitCharAux (c : Char) : List Char → List Char → List String
  | [], acc => [String.mk acc.reverse]
  | x :: xs, acc =>
    if x = c then String.mk acc.reverse :: splitCharAux c xs []
    else splitCharAux c xs (x :: acc)

/-- `s.split(sep)` for a single-character separator. -/
def jsSplitChar (c : Char) (s : String) : List String := splitCharAux c s.data []

/-- A FHIR `text` narrative: generation status plus an XHTML `div`. -/
structure Narrative where
  status : String
  div : String
deriving DecidableEq, Repr

structure Identifier where
  system : String
  value : String
deriving DecidableEq, Repr

structure Coding where
  system : String
  code : String
  display : String
deriving DecidableEq, Repr

structure Telecom where
  system : String
  value : String
deriving DecidableEq, Repr

/-- A roster entry of `/patients.json`, as consumed by the two builders;
`""` models an absent field. -/
structure RosterPatient where
  name : String
  gender : String
  dob : String
  birthDate : String
  mrn : String
  user_ref_id : String
  abha_ref : String
  idStr : String
  user_id : String
  mobile : String
  phone : String
  email : String
  address : String
deriving DecidableEq, Repr

/-! ## ABHA address normalization (defined identically in both source files) -/

/-- One raw element of an `abha_addresses` array: JS `null`/falsy, a string,
or an object.  An object's `JSON.stringify` rendering is carried as data
(`json`), and `address`/`isPrimary` model the fields the normalizer reads
(`none` = field absent/falsy). -/
inductive AbhaRaw where
  | nullish : AbhaRaw
  | str : String → AbhaRaw
  | obj : Option String → Bool → String → AbhaRaw
deriving DecidableEq, Repr

/-- A normalized ABHA address `{value, label, primary}`. -/
structure AbhaOut where
  value : String
  label : String
  primary : Bool
deriving DecidableEq, Repr

/-- The part of a patient object the normalizer looks at:
`additional_attributes.abha_addresses` (first path that holds an array
wins) or top-level `abha_addresses`. -/
structure AbhaPatient where
  additional_attributes : Option (List AbhaRaw)
  abha_addresses : Option (List AbhaRaw)
deriving DecidableEq, Repr

/-- The sort comparator `(b.primary - a.primary) || a.value.localeCompare(b.value)`
as an `a`-may-precede-`b` test (`localeCompare` modelled as code-point
comparison). -/
def abhaLe (a b : AbhaOut) : Bool :=
  if a.primary ≠ b.primary then a.primary else a.value ≤ b.value

def normalizeAbhaAddresses (patientObj : AbhaPatient) : List AbhaOut :=
  let raw := match patientObj.additional_attributes with
    | some l => l
    | none => patientObj.abha_addresses.getD []
  let out := raw.filterMap (fun item =>
    match item with
    | .nullish => none
    | .str s => if s = "" then none else some ⟨s, s, false⟩
    | .obj addr isPrimary json =>
      match addr with
      | some a =>
        if a ≠ "" then
          some ⟨a, if isPrimary then a ++ " (primary)" else a, isPrimary⟩
        else some ⟨json, json, isPrimary⟩
      | none => some ⟨json, json, isPrimary⟩)
  out.mergeSort abhaLe

/-! ## `App` — the immunization record builder (`src/App.js`) -/

namespace App

/-- The static `PRACTITIONERS` directory. -/
structure PracRec where
  id : String
  name : String
  qualification : String
  phone : String
  email : String
  regSystem : String
  regValue : String
deriving DecidableEq, Repr, Inhabited

def PRACTITIONERS : List PracRec :=
  [⟨"prac-1", "Dr. A. Verma", "MBBS, MD", "+919000011111", "verma@example.org",
    "https://nmc.org.in", "NMC-123"⟩,
   ⟨"prac-2", "Dr. B. Rao", "MBBS, MS", "+919000022222", "rao@example.org",
    "https://nmc.org.in", "NMC-456"⟩]

/-- `ddmmyyyyToISO` of `App.js`: pass `YYYY-MM-DD` through, reorder a
three-part `-`/`/`-separated value, otherwise `undefined` (`none`). -/
def ddmmyyyyToISO (v : String) : Option String :=
  if v = "" then none
  else
    let s := jsTrim v
    if isYyyyMmDd s then some s
    else
      match (if jsIncludes s '-' then some '-'
             else if jsIncludes s '/' then some '/' else none) with
      | none => none
      | some sep =>
        match jsSplitChar sep s with
        | [dd, mm, yyyy] =>
          some (yyyy ++ "-" ++ padStartZeros 2 mm ++ "-" ++ padStartZeros 2 dd)
        | _ => none

/-- `isoWithLocalOffsetFromDate`: renders the local wall-clock components
of instant `t` with the environment's UTC offset appended
(`±HH:MM`, hour and minute each padded). -/
def isoWithLocalOffsetFromDate (tzo : Int) (t : Int) : String :=
  let lc := civilFromSeconds (t + 60 * tzo)
  let tzoVar := -(-tzo)
  let sign := if tzoVar ≥ 0 then "+" else "-"
  let hh := jsPad ((tzoVar.natAbs : Int) / 60)
  let mm := jsPad ((tzoVar.natAbs : Int) % 60)
  toString lc.year ++ "-" ++ jsPad ((lc.month - 1) + 1) ++ "-" ++ jsPad lc.day
    ++ "T" ++ jsPad lc.hour ++ ":" ++ jsPad lc.minute ++ ":" ++ jsPad lc.second
    ++ sign ++ hh ++ ":" ++ mm

/-- `localDatetimeToISOWithOffset`: empty input defaults to "now". -/
def localDatetimeToISOWithOffset (env : JsEnv) (localDatetime : String) : String :=
  if localDatetime = "" then isoWithLocalOffsetFromDate env.tzo env.now
  else isoWithLocalOffsetFromDate env.tzo (env.parseDT localDatetime)

def buildNarrative (title innerHtml : String) : Narrative :=
  ⟨"generated",
   "<div xmlns=\"http://www.w3.org/1999/xhtml\" lang=\"en-IN\" xml:lang=\"en-IN\"><h3>"
     ++ title ++ "</h3>" ++ innerHtml ++ "</div>"⟩

/-- Tiny placeholder PDF payload used when no files are uploaded. -/
def PLACEHOLDER_PDF_B64 : String := "JVBERi0xLjQKJeLjz9MK"

def SNOMED_IMM_RECORD : Coding :=
  ⟨"http://snomed.info/sct", "41000179103", "Immunization record"⟩

/-- One row of the immunizations form list. -/
structure ImmForm where
  vaccineText : String
  occurrenceDate : String
  status : String
  lotNumber : String
deriving DecidableEq, Repr

/-- An uploaded file after the async base64 decode (`f.type` is `ftype`). -/
structure FileRec where
  name : String
  ftype : String
  dataB64 : String
deriving DecidableEq, Repr

/-- The form state consumed by `onBuildBundle`. -/
structure BuildInput where
  selectedPatient : Option RosterPatient
  selectedAbha : String
  selectedPractitionerIdx : Nat
  status : String
  title : String
  dateTimeLocal : String
  encounterText : String
  custodianName : String
  immunizations : List ImmForm
  immRecText : String
  immRecDateLocal : String
  files : List FileRec
deriving Repr

def hasImmsB (l : List ImmForm) : Bool :=
  !l.isEmpty && l.any (fun i => i.vaccineText != "" && jsTrim i.vaccineText != "")

/-- `validateBeforeBuild`: collects every violated precondition. -/
def validateBeforeBuild (inp : BuildInput) : List String :=
  (if inp.selectedPatient.isNone then ["Select a patient (required)."] else [])
  ++ (if inp.status == "" then ["Status is required."] else [])
  ++ (if inp.title == "" || jsTrim inp.title == "" then ["Title is required."] else [])
  ++ (if !(hasImmsB inp.immunizations
          || (inp.immRecText != "" && jsTrim inp.immRecText != "")
          || !inp.files.isEmpty) then
        ["Add at least one immunization, or an immunization recommendation, or upload at least one document."]
      else [])

structure PatientRes where
  id : String
  language : String
  profile : List String
  text : Narrative
  identifier : Option (List Identifier)
  name : Option String
  gender : Option String
  birthDate : Option String
  telecom : Option (List Telecom)
  address : Option String
deriving DecidableEq, Repr

structure PractitionerRes where
  id : String
  language : String
  profile : List String
  text : Narrative
  identifier : Option (List Identifier)
  name : String
  telecom : List Telecom
deriving DecidableEq, Repr

structure EncounterRes where
  id : String
  language : String
  profile : List String
  text : Narrative
  status : String
  encounterClass : Coding
  subject : String
  periodStart : String
  periodEnd : String
deriving DecidableEq, Repr

structure OrganizationRes where
  id : String
  language : String
  profile : List String
  text : Narrative
  name : String
deriving DecidableEq, Repr

structure ImmunizationRes where
  id : String
  language : String
  profile : List String
  text : Narrative
  status : String
  vaccineCodeText : String
  patient : String
  occurrenceDateTime : String
  lotNumber : Option String
deriving DecidableEq, Repr

structure ImmRecRecommendation where
  vaccineCodeText : Option String
  forecastStatusText : Option String
deriving DecidableEq, Repr

structure ImmRecRes where
  id : String
  language : String
  profile : List String
  patient : String
  date : String
  recommendation : List ImmRecRecommendation
deriving DecidableEq, Repr

structure AttachmentRef where
  contentType : String
  title : String
  url : String
deriving DecidableEq, Repr

structure DocRefRes where
  id : String
  language : String
  profile : List String
  text : Narrative
  status : String
  typeCodings : List Coding
  typeText : String
  subject : String
  date : String
  content : List AttachmentRef
deriving DecidableEq, Repr

structure BinaryRes where
  id : String
  language : String
  profile : List String
  contentType : String
  dataB64 : String
deriving DecidableEq, Repr

structure SectionEntryRef where
  reference : String
  entryType : String
deriving DecidableEq, Repr

structure CompSection where
  title : String
  codeCodings : List Coding
  codeText : String
  entry : Option (List SectionEntryRef)
  text : Option Narrative
deriving DecidableEq, Repr

structure CompositionRes where
  id : String
  language : String
  profile : List String
  text : Narrative
  status : String
  typeCodings : List Coding
  typeText : String
  subject : String
  encounter : Option String
  date : String
  authorRef : String
  authorDisplay : Option String
  title : String
  custodian : Option String
  sections : List CompSection
deriving DecidableEq, Repr

inductive Res where
  | composition : CompositionRes → Res
  | patient : PatientRes → Res
  | practitioner : PractitionerRes → Res
  | encounter : EncounterRes → Res
  | organization : OrganizationRes → Res
  | immunization : ImmunizationRes → Res
  | immRec : ImmRecRes → Res
  | docRef : DocRefRes → Res
  | binary : BinaryRes → Res
deriving DecidableEq, Repr

/-- The resource's own `id`. -/
def Res.rid : Res → String
  | .composition r => r.id
  | .patient r => r.id
  | .practitioner r => r.id
  | .encounter r => r.id
  | .organization r => r.id
  | .immunization r => r.id
  | .immRec r => r.id
  | .docRef r => r.id
  | .binary r => r.id

def Res.rtype : Res → String
  | .composition _ => "Composition"
  | .patient _ => "Patient"
  | .practitioner _ => "Practitioner"
  | .encounter _ => "Encounter"
  | .organization _ => "Organization"
  | .immunization _ => "Immunization"
  | .immRec _ => "ImmunizationRecommendation"
  | .docRef _ => "DocumentReference"
  | .binary _ => "Binary"

/-- Every reference string embedded in a resource: `Reference.reference`
fields (Composition subject/encounter/author/custodian/section entries,
Encounter subject, Immunization patient, ImmunizationRecommendation
patient, DocumentReference subject) and attachment `url`s. -/
def Res.refs : Res → List String
  | .composition r =>
    [r.subject] ++ (match r.encounter with | some e => [e] | none => [])
      ++ [r.authorRef] ++ (match r.custodian with | some cu => [cu] | none => [])
      ++ (r.sections.map (fun s => (s.entry.getD []).map (·.reference))).flatten
  | .patient _ => []
  | .practitioner _ => []
  | .encounter r => [r.subject]
  | .organization _ => []
  | .immunization r => [r.patient]
  | .immRec r => [r.patient]
  | .docRef r => [r.subject] ++ r.content.map (·.url)
  | .binary _ => []

structure BundleEntry where
  fullUrl : String
  resource : Res
deriving DecidableEq, Repr

structure Bundle where
  id : String
  profile : List String
  lastUpdated : String
  identifier : Identifier
  btype : String
  timestamp : String
  entry : List BundleEntry
deriving DecidableEq, Repr

def buildPatientResource (p : RosterPatient) (selectedAbha patientId : String) :
    PatientRes :=
  let mrn := jsOr (jsOr (jsOr p.mrn p.user_ref_id) p.abha_ref) p.idStr
  let identifiers :=
    (if mrn ≠ "" then [(⟨"https://healthid.ndhm.gov.in", mrn⟩ : Identifier)] else [])
    ++ (if p.abha_ref ≠ "" then [(⟨"https://abdm.gov.in/abha", p.abha_ref⟩ : Identifier)] else [])
  let telecom :=
    (if p.mobile ≠ "" then [(⟨"phone", p.mobile⟩ : Telecom)] else [])
    ++ (if p.email ≠ "" then [(⟨"email", p.email⟩ : Telecom)] else [])
    ++ (if selectedAbha ≠ "" then [(⟨"url", "abha://" ++ selectedAbha⟩ : Telecom)] else [])
  { id := patientId
    language := "en-IN"
    profile := ["http://hl7.org/fhir/StructureDefinition/Patient"]
    text := buildNarrative "Patient"
      ("<p>" ++ p.name ++ "</p><p>" ++ p.gender ++ " " ++ p.dob ++ "</p>")
    identifier := if identifiers.isEmpty then none else some identifiers
    name := if p.name ≠ "" then some p.name else none
    gender := if p.gender ≠ "" then some (jsToLowerCase p.gender) else none
    birthDate := ddmmyyyyToISO p.dob
    telecom := if telecom.isEmpty then none else some telecom
    address := if p.address ≠ "" then some p.address else none }

def buildPractitionerResource (idx : Nat) (practitionerId : String) :
    PractitionerRes :=
  let p := (PRACTITIONERS.get? idx).getD PRACTITIONERS.headI
  { id := practitionerId
    language := "en-IN"
    profile := ["http://hl7.org/fhir/StructureDefinition/Practitioner"]
    text := buildNarrative "Practitioner"
      ("<p>" ++ p.name ++ "</p><p>" ++ p.qualification ++ "</p>")
    identifier :=
      if p.regSystem ≠ "" ∧ p.regValue ≠ "" then
        some [⟨p.regSystem, p.regValue⟩]
      else none
    name := p.name
    telecom :=
      (if p.phone ≠ "" then [(⟨"phone", p.phone⟩ : Telecom)] else [])
      ++ (if p.email ≠ "" then [(⟨"email", p.email⟩ : Telecom)] else []) }

def buildEncounterResource (env : JsEnv) (encounterText patientId : String)
    (encounterId : Option String) : Option EncounterRes :=
  match encounterId with
  | none => none
  | some eid =>
    let start := isoWithLocalOffsetFromDate env.tzo env.now
    some { id := eid
           language := "en-IN"
           profile := ["http://hl7.org/fhir/StructureDefinition/Encounter"]
           text := buildNarrative "Encounter" ("<p>" ++ encounterText ++ "</p>")
           status := "finished"
           encounterClass :=
             ⟨"http://terminology.hl7.org/CodeSystem/v3-ActCode", "AMB", "ambulatory"⟩
           subject := "urn:uuid:" ++ patientId
           periodStart := start
           periodEnd := start }

def buildCustodianOrg (custodianName : String) (custodianId : Option String) :
    Option OrganizationRes :=
  match custodianId with
  | none => none
  | some cid =>
    some { id := cid
           language := "en-IN"
           profile := ["http://hl7.org/fhir/StructureDefinition/Organization"]
           text := buildNarrative "Organization" ("<p>" ++ custodianName ++ "</p>")
           name := custodianName }

def buildImmunizationResources (env : JsEnv) (imms : List ImmForm)
    (immId : Nat → String) (patientId : String) : List ImmunizationRes :=
  imms.enum.map (fun im =>
    let m := im.2
    let occ :=
      if m.occurrenceDate ≠ "" then
        (if jsIncludes m.occurrenceDate 'T' then jsToISOString (env.parseDT m.occurrenceDate)
         else (ddmmyyyyToISO m.occurrenceDate).getD (jsToISOString env.now))
      else jsToISOString env.now
    { id := immId im.1
      language := "en-IN"
      profile := ["http://hl7.org/fhir/StructureDefinition/Immunization"]
      text := buildNarrative "Immunization"
        ("Vaccine: " ++ (if m.vaccineText ≠ "" then m.vaccineText else "Unknown")
          ++ ", Date: " ++ occ)
      status := if m.status ≠ "" then m.status else "completed"
      vaccineCodeText := if m.vaccineText ≠ "" then m.vaccineText else "Unknown vaccine"
      patient := "urn:uuid:" ++ patientId
      occurrenceDateTime := occ
      lotNumber := if m.lotNumber ≠ "" then some m.lotNumber else none })

def buildImmRecResource (env : JsEnv) (immRecText immRecDateLocal authoredOn patientId : String)
    (immRecId : Option String) : Option ImmRecRes :=
  match immRecId with
  | none => none
  | some rid =>
    some { id := rid
           language := "en-IN"
           profile := ["http://hl7.org/fhir/StructureDefinition/ImmunizationRecommendation"]
           patient := "urn:uuid:" ++ patientId
           date := if immRecDateLocal ≠ "" then localDatetimeToISOWithOffset env immRecDateLocal
                   else authoredOn
           recommendation :=
             [⟨if immRecText ≠ "" then some immRecText else none,
               if immRecText ≠ "" then some "Recommended" else none⟩] }

structure DocBinOut where
  binaries : List BinaryRes
  docRefs : List DocRefRes
deriving DecidableEq, Repr

/-- `buildDocAndBinaryResources`: one Binary + DocumentReference pair per
uploaded file, or a single placeholder pair when no files were picked.
(The source builds both lists in one loop; here the loop's per-iteration
pair is mapped and the two components projected.) -/
def buildDocAndBinaryResources (files : List FileRec)
    (binId docId : Nat → String) (patientId authoredOn : String) : DocBinOut :=
  let toProcess : List (Option FileRec) :=
    if files.isEmpty then [none] else files.map some
  let pairs := toProcess.enum.map (fun itf =>
    let i := itf.1
    let contentType := match itf.2 with
      | some f => if f.ftype ≠ "" then f.ftype else "application/pdf"
      | none => "application/pdf"
    let dataB64 := match itf.2 with
      | some f => f.dataB64
      | none => PLACEHOLDER_PDF_B64
    let dtitle := match itf.2 with
      | some f => if f.name ≠ "" then f.name else "placeholder.pdf"
      | none => "placeholder.pdf"
    ((⟨binId i, "en-IN", ["https://nrces.in/ndhm/fhir/r4/StructureDefinition/Binary"],
       contentType, dataB64⟩ : BinaryRes),
     ({ id := docId i
        language := "en-IN"
        profile := ["http://hl7.org/fhir/StructureDefinition/DocumentReference"]
        text := buildNarrative "DocumentReference" ("<p>" ++ dtitle ++ "</p>")
        status := "current"
        typeCodings := [SNOMED_IMM_RECORD]
        typeText := "Immunization document"
        subject := "urn:uuid:" ++ patientId
        date := authoredOn
        content := [⟨contentType, dtitle, "urn:uuid:" ++ binId i⟩] } : DocRefRes)))
  ⟨pairs.map Prod.fst, pairs.map Prod.snd⟩

def buildComposition (docRefsArr : List DocRefRes) (immId : Nat → String) (n : Nat)
    (immRecId : Option String) (compId patientId practitionerId : String)
    (encounterId custodianId : Option String)
    (authoredOn status title : String) (pracIdx : Nat) : CompositionRes :=
  let entries :=
    (List.range n).map (fun k =>
      (⟨"urn:uuid:" ++ immId k, "Immunization"⟩ : SectionEntryRef))
    ++ (match immRecId with
        | some r => [(⟨"urn:uuid:" ++ r, "ImmunizationRecommendation"⟩ : SectionEntryRef)]
        | none => [])
    ++ docRefsArr.map (fun dr =>
        (⟨"urn:uuid:" ++ dr.id, "DocumentReference"⟩ : SectionEntryRef))
  { id := compId
    language := "en-IN"
    profile := ["http://hl7.org/fhir/StructureDefinition/Composition"]
    text := buildNarrative "Composition"
      ("<p>" ++ title ++ "</p><p>Author: "
        ++ (((PRACTITIONERS.get? pracIdx).map (·.name)).getD "") ++ "</p>")
    status := status
    typeCodings := [SNOMED_IMM_RECORD]
    typeText := "Immunization record"
    subject := "urn:uuid:" ++ patientId
    encounter := encounterId.map (fun e => "urn:uuid:" ++ e)
    date := authoredOn
    authorRef := "urn:uuid:" ++ practitionerId
    authorDisplay := (PRACTITIONERS.get? pracIdx).map (·.name)
    title := title
    custodian := custodianId.map (fun cu => "urn:uuid:" ++ cu)
    sections :=
      [{ title := "Immunization section"
         codeCodings := [SNOMED_IMM_RECORD]
         codeText := "Immunization record"
         entry := if entries.isEmpty then none else some entries
         text :=
           if entries.isEmpty then
             some ⟨"generated",
               "<div xmlns=\"http://www.w3.org/1999/xhtml\" lang=\"en-IN\" xml:lang=\"en-IN\"><p>No immunization entries</p></div>"⟩
           else none }] }

/-- The bundle assembled by a successful `onBuildBundle` run for the
selected patient `p`.  `ids` is the `uuidv4` supply in call order:
composition, patient, practitioner, [encounter], [custodian], one per
immunization row, [recommendation], one per binary, one per document
reference, bundle id, bundle identifier value. -/
def mkBundle (env : JsEnv) (ids : Nat → String) (inp : BuildInput)
    (p : RosterPatient) : Bundle :=
  let authoredOn := localDatetimeToISOWithOffset env inp.dateTimeLocal
  let compId := ids 0
  let patientId := ids 1
  let practitionerId := ids 2
  let e : Nat := if inp.encounterText ≠ "" then 1 else 0
  let encounterId : Option String :=
    if inp.encounterText ≠ "" then some (ids 3) else none
  let c : Nat := if inp.custodianName ≠ "" then 1 else 0
  let custodianId : Option String :=
    if inp.custodianName ≠ "" then some (ids (3 + e)) else none
  let n := inp.immunizations.length
  let immId : Nat → String := fun k => ids (3 + e + c + k)
  let r : Nat := if inp.immRecText ≠ "" then 1 else 0
  let immRecId : Option String :=
    if inp.immRecText ≠ "" then some (ids (3 + e + c + n)) else none
  let f : Nat := if inp.files.isEmpty then 1 else inp.files.length
  let binId : Nat → String := fun i => ids (3 + e + c + n + r + i)
  let docId : Nat → String := fun i => ids (3 + e + c + n + r + f + i)
  let patientRes := buildPatientResource p inp.selectedAbha patientId
  let practitionerRes := buildPractitionerResource inp.selectedPractitionerIdx practitionerId
  let encounterRes := buildEncounterResource env inp.encounterText patientId encounterId
  let custodianRes := buildCustodianOrg inp.custodianName custodianId
  let immunizationResources := buildImmunizationResources env inp.immunizations immId patientId
  let immRecResource :=
    buildImmRecResource env inp.immRecText inp.immRecDateLocal authoredOn patientId immRecId
  let docBin := buildDocAndBinaryResources inp.files binId docId patientId authoredOn
  let compositionRes :=
    buildComposition docBin.docRefs immId n immRecId compId patientId practitionerId
      encounterId custodianId authoredOn inp.status inp.title inp.selectedPractitionerIdx
  { id := "ImmunizationBundle-" ++ ids (3 + e + c + n + r + 2 * f)
    profile := ["http://hl7.org/fhir/StructureDefinition/Bundle"]
    lastUpdated := isoWithLocalOffsetFromDate env.tzo env.now
    identifier := ⟨"urn:ietf:rfc:3986", "urn:uuid:" ++ ids (4 + e + c + n + r + 2 * f)⟩
    btype := "document"
    timestamp := isoWithLocalOffsetFromDate env.tzo env.now
    entry :=
      [⟨"urn:uuid:" ++ compositionRes.id, Res.composition compositionRes⟩,
       ⟨"urn:uuid:" ++ patientRes.id, Res.patient patientRes⟩,
       ⟨"urn:uuid:" ++ practitionerRes.id, Res.practitioner practitionerRes⟩]
      ++ (match encounterRes with
          | some er => [⟨"urn:uuid:" ++ er.id, Res.encounter er⟩]
          | none => [])
      ++ (match custodianRes with
          | some og => [⟨"urn:uuid:" ++ og.id, Res.organization og⟩]
          | none => [])
      ++ immunizationResources.map (fun ir => ⟨"urn:uuid:" ++ ir.id, Res.immunization ir⟩)
      ++ (match immRecResource with
          | some rr => [⟨"urn:uuid:" ++ rr.id, Res.immRec rr⟩]
          | none => [])
      ++ docBin.docRefs.map (fun dr => ⟨"urn:uuid:" ++ dr.id, Res.docRef dr⟩)
      ++ docBin.binaries.map (fun b => ⟨"urn:uuid:" ++ b.id, Res.binary b⟩) }

/-- `onBuildBundle`: validation gate first; on any violation the errors are
alerted together and no bundle is produced. -/
def onBuildBundle (env : JsEnv) (ids : Nat → String) (inp : BuildInput) :
    Option Bundle :=
  if (validateBeforeBuild inp).isEmpty then
    inp.selectedPatient.map (mkBundle env ids inp)
  else none

end App

/-! ## `Wg` — the diagnostic-report builder (`src/DiagnosticReportForm.js`) -/

namespace Wg

/-- `buildNarrative` of this file returns the `div` string directly. -/
def buildNarrative (title html : String) : String :=
  "<div xmlns=\"http://www.w3.org/1999/xhtml\" lang=\"en-IN\" xml:lang=\"en-IN\"><h3>"
    ++ title ++ "</h3>" ++ html ++ "</div>"

/-- `ddmmyyyyToISO` of this file: on an unrecognized shape the input is
returned unchanged (not dropped). -/
def ddmmyyyyToISO (value : String) : String :=
  if value = "" then ""
  else
    let s := jsTrim value
    if isYyyyMmDd s then s
    else
      match (if jsIncludes s '-' then some '-'
             else if jsIncludes s '/' then some '/' else none) with
      | none => s
      | some sep =>
        match jsSplitChar sep s with
        | [d, m, y] =>
          if d.length = 4 then s
          else if y.length = 4 then y ++ "-" ++ padStartZeros 2 m ++ "-" ++ padStartZeros 2 d
          else s
        | _ => s

/-- `mapGender`: case-insensitive first-letter classification with an
`"unknown"` fallback; a falsy input yields `""`.  (`startsWith` on the
single-letter prefixes is modelled by `strHead`.) -/
def mapGender (g : String) : String :=
  if g = "" then ""
  else
    let s := jsToLowerCase g
    if strHead s == some 'm' then "male"
    else if strHead s == some 'f' then "female"
    else if strHead s == some 'o' then "other"
    else "unknown"

/-- `getISOWithOffsetFromDateInput`: renders `d.toISOString()` (UTC
components, milliseconds included) and replaces the trailing `Z` by the
local offset string. -/
def getISOWithOffsetFromDateInput (env : JsEnv) (dateInput : String) : String :=
  let nowLocal := civilFromSeconds (env.now + 60 * env.tzo)
  let d : Int :=
    if dateInput ≠ "" then
      (if isYyyyMmDd dateInput then
        (match parseYmdDigits dateInput with
         | some ymd =>
           secondsFromCivil
             ⟨ymd.1, ymd.2.1, ymd.2.2, nowLocal.hour, nowLocal.minute, nowLocal.second⟩
             - 60 * env.tzo
         | none => env.now)
       else env.now)
    else env.now
  let tzOffsetMin : Int := -env.tzo
  let sign := if tzOffsetMin > 0 then "-" else "+"
  let offsetHr := padStartZeros 2 (toString (tzOffsetMin.natAbs / 60))
  let offsetMin := padStartZeros 2 (toString (tzOffsetMin.natAbs % 60))
  jsReplace (jsToISOString d) "Z" (sign ++ offsetHr ++ ":" ++ offsetMin)

/-- The flattened logged-in practitioner `{id, name, license}`. -/
structure WgPractitioner where
  id : String
  name : String
  license : String
deriving DecidableEq, Repr

/-- The patient form state used in the bundle. -/
structure WgPatientState where
  name : String
  mrn : String
  birthDate : String
  gender : String
  phone : String
deriving DecidableEq, Repr

/-- The patient-roster-to-form mapping of `handlePatientSelect` (also run
for the auto-selected first patient on load). -/
def wgPatientFromRoster (p : RosterPatient) : WgPatientState :=
  { name := p.name
    mrn := jsOr (jsOr (jsOr p.mrn p.user_ref_id) p.abha_ref) p.user_id
    birthDate := ddmmyyyyToISO (jsOr p.dob p.birthDate)
    gender := mapGender p.gender
    phone :=
      if p.mobile ≠ "" then
        (if strHead p.mobile == some '+' then p.mobile else "+91" ++ p.mobile)
      else p.phone }

structure WgResultRow where
  id : String
  codeText : String
  codeSnomed : String
  value : String
deriving DecidableEq, Repr

structure WgSpecimenRow where
  id : String
  typeText : String
deriving DecidableEq, Repr

structure WgAttachment where
  id : String
  name : String
  mime : String
  base64 : String
deriving DecidableEq, Repr

/-- The state consumed by `buildBundle`. -/
structure WgInput where
  practitioner : WgPractitioner
  patient : WgPatientState
  title : String
  diagStatus : String
  diagCategory : String
  diagCodeText : String
  diagCodeSNOMED : String
  issuedDate : String
  effectiveDate : String
  encounterRef : String
  results : List WgResultRow
  specimens : List WgSpecimenRow
  attachments : List WgAttachment
deriving Repr

structure WgTelecom where
  system : String
  value : String
  use : String
deriving DecidableEq, Repr

structure WgSectionEntry where
  reference : String
  entryType : String
deriving DecidableEq, Repr

structure WgCompositionRes where
  id : String
  profile : List String
  language : String
  text : Narrative
  status : String
  typeCodings : List Coding
  typeText : String
  subjectRef : String
  subjectDisplay : String
  date : String
  authorRef : String
  authorDisplay : String
  title : String
  sectionTitle : String
  sectionCodings : List Coding
  sectionEntries : List WgSectionEntry
deriving DecidableEq, Repr

structure WgPatientRes where
  id : String
  profile : List String
  text : Narrative
  identifier : List Identifier
  name : String
  telecom : List WgTelecom
  gender : String
  birthDate : Option String
deriving DecidableEq, Repr

structure WgPractitionerRes where
  id : String
  profile : List String
  text : Narrative
  identifier : List Identifier
  name : String
deriving DecidableEq, Repr

structure WgObservationRes where
  id : String
  profile : List String
  text : Narrative
  status : String
  codeCodings : Option (List Coding)
  codeText : String
  subjectRef : String
  subjectDisplay : String
  performerRef : String
  performerDisplay : String
  effectiveDateTime : String
  valueString : Option String
deriving DecidableEq, Repr

structure WgSpecimenRes where
  id : String
  profile : List String
  text : Narrative
  subjectRef : String
  subjectDisplay : String
  typeText : Option String
  receivedTime : String
deriving DecidableEq, Repr

structure WgAttachmentContent where
  contentType : String
  dataB64 : String
  title : String
deriving DecidableEq, Repr

structure WgDocRefRes where
  id : String
  profile : List String
  text : Narrative
  status : String
  typeCodings : List Coding
  typeText : String
  subjectRef : String
  subjectDisplay : String
  date : String
  content : List WgAttachmentContent
deriving DecidableEq, Repr

structure WgDiagReportRes where
  id : String
  profile : List String
  text : Narrative
  status : String
  categoryCodings : List Coding
  categoryText : String
  codeCodings : Option (List Coding)
  codeText : String
  subjectRef : String
  subjectDisplay : String
  performerRef : String
  performerDisplay : String
  issued : String
  result : List String
  specimen : List String
deriving DecidableEq, Repr

inductive WgRes where
  | composition : WgCompositionRes → WgRes
  | patient : WgPatientRes → WgRes
  | practitioner : WgPractitionerRes → WgRes
  | diagReport : WgDiagReportRes → WgRes
  | observation : WgObservationRes → WgRes
  | specimen : WgSpecimenRes → WgRes
  | docRef : WgDocRefRes → WgRes
deriving DecidableEq, Repr

def WgRes.rid : WgRes → String
  | .composition r => r.id
  | .patient r => r.id
  | .practitioner r => r.id
  | .diagReport r => r.id
  | .observation r => r.id
  | .specimen r => r.id
  | .docRef r => r.id

def WgRes.rtype : WgRes → String
  | .composition _ => "Composition"
  | .patient _ => "Patient"
  | .practitioner _ => "Practitioner"
  | .diagReport _ => "DiagnosticReport"
  | .observation _ => "Observation"
  | .specimen _ => "Specimen"
  | .docRef _ => "DocumentReference"

structure WgBundleEntry where
  fullUrl : String
  resource : WgRes
deriving DecidableEq, Repr

structure WgBundle where
  id : String
  versionId : String
  lastUpdated : String
  profile : List String
  identifier : Identifier
  btype : String
  timestamp : String
  entry : List WgBundleEntry
deriving DecidableEq, Repr

/-- The bundle assembled by `buildBundle` once the four required-field
checks have passed.  `uuidv4` call order: composition, patient,
practitioner, diagnostic report, one per result, one per specimen, one per
attachment, bundle id, bundle identifier value. -/
def wgMkBundle (env : JsEnv) (ids : Nat → String) (inp : WgInput) : WgBundle :=
  let compId := ids 0
  let patientId := ids 1
  let practitionerId := ids 2
  let diagId := ids 3
  let k := inp.results.length
  let s := inp.specimens.length
  let a := inp.attachments.length
  let obsId : Nat → String := fun i => ids (4 + i)
  let specId : Nat → String := fun i => ids (4 + k + i)
  let docId : Nat → String := fun i => ids (4 + k + s + i)
  let compositionResource : WgCompositionRes :=
    { id := compId
      profile := ["http://hl7.org/fhir/StructureDefinition/Composition"]
      language := "en-IN"
      text := ⟨"generated",
        buildNarrative "Laboratory report"
          ("<p>" ++ inp.title ++ "</p><p>Date: " ++ inp.issuedDate ++ "</p>")⟩
      status := "final"
      typeCodings := [⟨"http://loinc.org", "11502-2", "Laboratory report"⟩]
      typeText := "Laboratory report"
      subjectRef := "urn:uuid:" ++ patientId
      subjectDisplay := inp.patient.name
      date := inp.issuedDate ++ "T00:00:00+05:30"
      authorRef := "urn:uuid:" ++ practitionerId
      authorDisplay := inp.practitioner.name
      title := inp.title
      sectionTitle := "Laboratory report"
      sectionCodings := [⟨"http://loinc.org", "11502-2", "Laboratory report"⟩]
      sectionEntries :=
        [⟨"urn:uuid:" ++ diagId, "DiagnosticReport"⟩]
        ++ (if inp.attachments.length > 0 then
              inp.attachments.enum.map (fun ia =>
                (⟨"urn:uuid:" ++ docId ia.1, "DocumentReference"⟩ : WgSectionEntry))
            else []) }
  let patientResource : WgPatientRes :=
    { id := patientId
      profile := ["http://hl7.org/fhir/StructureDefinition/Patient"]
      text := ⟨"generated",
        buildNarrative "Patient"
          ("<p>" ++ inp.patient.name ++ " (MRN: " ++ inp.patient.mrn ++ ")</p>")⟩
      identifier := [⟨"https://healthid.ndhm.gov.in", inp.patient.mrn⟩]
      name := inp.patient.name
      telecom :=
        if inp.patient.phone ≠ "" then [⟨"phone", inp.patient.phone, "home"⟩] else []
      gender := inp.patient.gender
      birthDate := if inp.patient.birthDate ≠ "" then some inp.patient.birthDate else none }
  let practitionerResource : WgPractitionerRes :=
    { id := practitionerId
      profile := ["http://hl7.org/fhir/StructureDefinition/Practitioner"]
      text := ⟨"generated", buildNarrative "Practitioner" ("<p>" ++ inp.practitioner.name ++ "</p>")⟩
      identifier := [⟨"https://doctor.ndhm.gov.in", inp.practitioner.license⟩]
      name := inp.practitioner.name }
  let observationResources : List WgObservationRes :=
    inp.results.enum.map (fun ir =>
      let r := ir.2
      { id := obsId ir.1
        profile := ["http://hl7.org/fhir/StructureDefinition/Observation"]
        text := ⟨"generated",
          buildNarrative "Result" ("<p>" ++ r.codeText ++ ": " ++ r.value ++ "</p>")⟩
        status := "final"
        codeCodings :=
          if r.codeSnomed ≠ "" ∧ jsTrim r.codeSnomed ≠ "" then
            some [⟨"http://snomed.info/sct", jsTrim r.codeSnomed, r.codeText⟩]
          else none
        codeText := r.codeText
        subjectRef := "urn:uuid:" ++ patientId
        subjectDisplay := inp.patient.name
        performerRef := "urn:uuid:" ++ practitionerId
        performerDisplay := inp.practitioner.name
        effectiveDateTime :=
          if inp.effectiveDate ≠ "" then getISOWithOffsetFromDateInput env inp.effectiveDate
          else getISOWithOffsetFromDateInput env inp.issuedDate
        valueString := if r.value ≠ "" then some r.value else none })
  let specimenResources : List WgSpecimenRes :=
    inp.specimens.enum.map (fun is' =>
      let sp := is'.2
      { id := specId is'.1
        profile := ["http://hl7.org/fhir/StructureDefinition/Specimen"]
        text := ⟨"generated", buildNarrative "Specimen" ("<p>" ++ sp.typeText ++ "</p>")⟩
        subjectRef := "urn:uuid:" ++ patientId
        subjectDisplay := inp.patient.name
        typeText := if sp.typeText ≠ "" then some sp.typeText else none
        receivedTime := getISOWithOffsetFromDateInput env inp.issuedDate })
  let documentResources : List WgDocRefRes :=
    inp.attachments.enum.map (fun ia =>
      let att := ia.2
      { id := docId ia.1
        profile := ["http://hl7.org/fhir/StructureDefinition/DocumentReference"]
        text := ⟨"generated", buildNarrative "Document" ("<p>" ++ att.name ++ "</p>")⟩
        status := "current"
        typeCodings := [⟨"http://loinc.org", "11502-2", "Laboratory report"⟩]
        typeText := "Laboratory report"
        subjectRef := "urn:uuid:" ++ patientId
        subjectDisplay := inp.patient.name
        date := getISOWithOffsetFromDateInput env inp.issuedDate
        content := [⟨att.mime, att.base64, att.name⟩] })
  let diagCategoryCoding : Coding :=
    if inp.diagCategory = "IMG" then
      ⟨"http://terminology.hl7.org/CodeSystem/v2-0074", "RAD", "Imaging"⟩
    else ⟨"http://terminology.hl7.org/CodeSystem/v2-0074", "LAB", "Laboratory"⟩
  let diagnosticReportResource : WgDiagReportRes :=
    { id := diagId
      profile := ["http://hl7.org/fhir/StructureDefinition/DiagnosticReport"]
      text := ⟨"generated",
        buildNarrative "DiagnosticReport"
          ("<p>" ++ inp.diagCodeText ++ " (" ++ inp.diagCategory ++ ")</p>")⟩
      status := inp.diagStatus
      categoryCodings := [diagCategoryCoding]
      categoryText := diagCategoryCoding.display
      codeCodings :=
        if inp.diagCodeSNOMED ≠ "" ∧ jsTrim inp.diagCodeSNOMED ≠ "" then
          some [⟨"http://snomed.info/sct", jsTrim inp.diagCodeSNOMED, inp.diagCodeText⟩]
        else none
      codeText := inp.diagCodeText
      subjectRef := "urn:uuid:" ++ patientId
      subjectDisplay := inp.patient.name
      performerRef := "urn:uuid:" ++ practitionerId
      performerDisplay := inp.practitioner.name
      issued := getISOWithOffsetFromDateInput env inp.issuedDate
      result := observationResources.map (fun o => "urn:uuid:" ++ o.id)
      specimen := specimenResources.map (fun sp => "urn:uuid:" ++ sp.id) }
  { id := "DiagnosticReportBundle-" ++ ids (4 + k + s + a)
    versionId := "1"
    lastUpdated := getISOWithOffsetFromDateInput env ""
    profile := ["http://hl7.org/fhir/StructureDefinition/Bundle"]
    identifier := ⟨"https://ndhm.gov.in/fhir/bundles",
                   "diagnostic-report-" ++ ids (5 + k + s + a)⟩
    btype := "document"
    timestamp := getISOWithOffsetFromDateInput env ""
    entry :=
      [⟨"urn:uuid:" ++ compId, WgRes.composition compositionResource⟩,
       ⟨"urn:uuid:" ++ patientId, WgRes.patient patientResource⟩,
       ⟨"urn:uuid:" ++ practitionerId, WgRes.practitioner practitionerResource⟩,
       ⟨"urn:uuid:" ++ diagId, WgRes.diagReport diagnosticReportResource⟩]
      ++ observationResources.map (fun o => ⟨"urn:uuid:" ++ o.id, WgRes.observation o⟩)
      ++ specimenResources.map (fun sp => ⟨"urn:uuid:" ++ sp.id, WgRes.specimen sp⟩)
      ++ documentResources.map (fun doc => ⟨"urn:uuid:" ++ doc.id, WgRes.docRef doc⟩) }

/-- `buildBundle`: the required-field checks `throw` one at a time, in
source order; only when all pass is the bundle assembled. -/
def buildBundle (env : JsEnv) (ids : Nat → String) (inp : WgInput) :
    Except String WgBundle :=
  if inp.practitioner.name = "" ∨ inp.practitioner.license = "" then
    .error "Practitioner name and license required."
  else if inp.patient.name = "" ∨ inp.patient.mrn = "" ∨ inp.patient.gender = "" then
    .error "Patient name, MRN and gender required."
  else if inp.diagCodeText = "" then
    .error "Diagnostic test code/name is required."
  else if inp.issuedDate = "" then
    .error "Issued date is required."
  else .ok (wgMkBundle env ids inp)

end Wg

/-! ## A small XHTML fragment checker (for the narrative-safety claim)

`wellFormedFragment` scans a fragment for balanced, properly nested tags:
a `<` must open a tag whose name is non-empty, attribute text may not
contain `<` or `>`, and every closing tag must match the innermost open
tag.  It is deliberately tolerant of anything else (entities, `>` in
text), so it only rejects fragments whose tag structure is broken. -/

def tagNameStop (ch : Char) : Bool :=
  ch = '>' || ch = ' ' || ch = '<' || ch = '/'

def scanTags : Nat → List Char → List String → Bool
  | 0, _, _ => false
  | _ + 1, [], stack => stack.isEmpty
  | fuel + 1, '<' :: rest, stack =>
    match rest with
    | '/' :: rest2 =>
      let nm := rest2.takeWhile (fun ch => !tagNameStop ch)
      (match rest2.drop nm.length with
       | '>' :: rest3 =>
         (match stack with
          | top :: stackRest =>
            if top = String.mk nm then scanTags fuel rest3 stackRest else false
          | [] => false)
       | _ => false)
    | _ =>
      let nm := rest.takeWhile (fun ch => !tagNameStop ch)
      if nm.isEmpty then false
      else
        let afterName := rest.drop nm.length
        let attrs := afterName.takeWhile (fun ch => ch ≠ '>' && ch ≠ '<')
        (match afterName.drop attrs.length with
         | '>' :: rest3 => scanTags fuel rest3 (String.mk nm :: stack)
         | _ => false)
  | fuel + 1, _ :: rest, stack => scanTags fuel rest stack

def wellFormedFragment (s : String) : Bool :=
  scanTags (s.length + 1) s.data []

/-! ## Engine parse models and concrete fixtures -/

/-- `new Date("YYYY-MM-DDTHH:mm[:ss]")`: a datetime-local string denotes
local wall-clock components, so the denoted instant subtracts the zone
offset. -/
def jsDateFromLocalCivil (tzo : Int) (c : Civil) : Int :=
  secondsFromCivil c - 60 * tzo

/-- Parsing a datetime string that carries an explicit `±HH:MM` offset
(`off` in minutes east): the components are wall-clock in that offset. -/
def jsDateFromCivilWithOffset (c : Civil) (off : Int) : Int :=
  secondsFromCivil c - 60 * off

/-- The §8 scenario subject: `{name: "Asha Singh", dob: "15-06-1990", gender: "F"}`. -/
def ashaRoster : RosterPatient :=
  ⟨"Asha Singh", "F", "15-06-1990", "", "", "", "", "", "", "", "", "", ""⟩

/-- A concrete environment: IST (UTC+05:30), "now" = epoch. -/
def env0 : JsEnv := ⟨330, 0, fun _ => 0⟩

/-- A concrete injective identifier supply. -/
def ids0 : Nat → String := fun n => String.mk (List.replicate n 'x')

theorem ids0_injective : Function.Injective ids0 := by
  intro a b h
  have h2 := congrArg (fun s => s.data.length) h
  simpa [ids0] using h2

/-- The §8 scenario form state: selected subject, author 0, title
"Immunization Record", status "final", one BCG entry, nothing else. -/
def inp0 : App.BuildInput :=
  ⟨some ashaRoster, "", 0, "final", "Immunization Record", "", "", "",
   [⟨"BCG", "", "completed", ""⟩], "", "", []⟩

/-! ## Claim theorems -/

/-- C4 (counterexample): the diagnostic-report normalizer
`getISOWithOffsetFromDateInput` does not render the claimed
`YYYY-MM-DDTHH:mm:ss±HH:MM` local-wall-clock form.  In an IST (+05:30)
environment at the epoch instant, the local wall clock is
1970-01-01 05:30:00, but the function renders the UTC components plus
milliseconds, `1970-01-01T00:00:00.000+05:30`; parsing that string with
its embedded offset and normalizing again yields
`1969-12-31T18:30:00.000+05:30`, so the round-trip also fails. -/
theorem wg_timestamp_not_local_wallclock :
    Wg.getISOWithOffsetFromDateInput ⟨330, 0, fun _ => 0⟩ ""
      = "1970-01-01T00:00:00.000+05:30" ∧
    civilFromSeconds (0 + 60 * 330) = ⟨1970, 1, 1, 5, 30, 0⟩ ∧
    Wg.getISOWithOffsetFromDateInput ⟨330, 0, fun _ => 0⟩ ""
      ≠ App.isoWithLocalOffsetFromDate 330 0 ∧
    jsReplace (jsToISOString (jsDateFromCivilWithOffset ⟨1970, 1, 1, 0, 0, 0⟩ 330))
        "Z" "+05:30"
      = "1969-12-31T18:30:00.000+05:30" ∧
    "1969-12-31T18:30:00.000+05:30"
      ≠ Wg.getISOWithOffsetFromDateInput ⟨330, 0, fun _ => 0⟩ "" := by
  exact ⟨by decide, by decide, by decide, by decide, by decide⟩

/-- C4 (amended): the immunization builder's normalizer
`isoWithLocalOffsetFromDate` does satisfy the claim: it renders the local
wall-clock components of its instant (first conjunct: the components it
displays are exactly the civil datetime that was parsed), parsing the
rendered string back with its embedded offset and normalizing again
reproduces the same string (second conjunct), and the offset is rendered
sign + zero-padded hour + ":" + zero-padded minute in positive- and
negative-offset environments alike (last two conjuncts). -/
theorem iso_offset_roundtrip (tzo : Int) (c : Civil) (hc : c.Valid) :
    civilFromSeconds (jsDateFromLocalCivil tzo c + 60 * tzo) = c ∧
    App.isoWithLocalOffsetFromDate tzo
        (jsDateFromCivilWithOffset
          (civilFromSeconds (jsDateFromLocalCivil tzo c + 60 * tzo)) tzo)
      = App.isoWithLocalOffsetFromDate tzo (jsDateFromLocalCivil tzo c) ∧
    App.isoWithLocalOffsetFromDate 330 0 = "1970-01-01T05:30:00+05:30" ∧
    App.isoWithLocalOffsetFromDate (-570) 0 = "1969-12-31T14:30:00-09:30" := by
  have h1 : jsDateFromLocalCivil tzo c + 60 * tzo = secondsFromCivil c := by
    unfold jsDateFromLocalCivil; ring
  have h2 : civilFromSeconds (jsDateFromLocalCivil tzo c + 60 * tzo) = c := by
    rw [h1]; exact civil_roundtrip c hc
  refine ⟨h2, ?_, by decide, by decide⟩
  rw [h2]
  unfold jsDateFromCivilWithOffset jsDateFromLocalCivil
  rfl

theorem iso_offset_roundtrip_witness :
    (⟨2026, 2, 14, 9, 30, 5⟩ : Civil).Valid ∧
    civilFromSeconds (jsDateFromLocalCivil 330 ⟨2026, 2, 14, 9, 30, 5⟩ + 60 * 330)
      = ⟨2026, 2, 14, 9, 30, 5⟩ :=
  ⟨by decide, (iso_offset_roundtrip 330 ⟨2026, 2, 14, 9, 30, 5⟩ (by decide)).1⟩

/-- C5 (counterexample): on unrecognized input neither date normalizer
returns an empty/undefined result in all cases.  The App version guesses
a reordered value from the non-date three-part input `"ab-cd-ef"`, and the
diagnostic-report version passes `"hello"` (and `"ab-cd-ef"`) through
unchanged. -/
theorem date_only_guessing_counterexample :
    App.ddmmyyyyToISO "ab-cd-ef" = some "ef-cd-ab" ∧
    some "ef-cd-ab" ≠ (none : Option String) ∧
    Wg.ddmmyyyyToISO "hello" = "hello" ∧
    Wg.ddmmyyyyToISO "ab-cd-ef" = "ab-cd-ef" ∧
    "hello" ≠ "" := by
  exact ⟨by decide, by decide, by decide, by decide, by decide⟩

/-- C5 (amended): full behaviour of the two date-only normalizers.
A `YYYY-MM-DD`-shaped (trimmed) input passes through both; any other
three-part `-`- or `/`-separated value is reordered `P3-P2-P1` with the
first two parts zero-padded by the App version, with no digit validation,
while the diagnostic version reorders only when the last part has length
4 (and the first does not) and otherwise returns the trimmed input
unchanged; with no separator or a part count other than three the App
version returns `none` while the diagnostic version returns the trimmed
input; the empty input yields `none` resp. `""`. -/
theorem date_only_behaviour :
    (∀ v, v ≠ "" → isYyyyMmDd (jsTrim v) = true →
      App.ddmmyyyyToISO v = some (jsTrim v) ∧ Wg.ddmmyyyyToISO v = jsTrim v) ∧
    (∀ v d m y, v ≠ "" → isYyyyMmDd (jsTrim v) = false →
      jsIncludes (jsTrim v) '-' = true → jsSplitChar '-' (jsTrim v) = [d, m, y] →
      App.ddmmyyyyToISO v
          = some (y ++ "-" ++ padStartZeros 2 m ++ "-" ++ padStartZeros 2 d) ∧
      Wg.ddmmyyyyToISO v
          = (if d.length = 4 then jsTrim v
             else if y.length = 4 then
               y ++ "-" ++ padStartZeros 2 m ++ "-" ++ padStartZeros 2 d
             else jsTrim v)) ∧
    (∀ v d m y, v ≠ "" → isYyyyMmDd (jsTrim v) = false →
      jsIncludes (jsTrim v) '-' = false → jsIncludes (jsTrim v) '/' = true →
      jsSplitChar '/' (jsTrim v) = [d, m, y] →
      App.ddmmyyyyToISO v
          = some (y ++ "-" ++ padStartZeros 2 m ++ "-" ++ padStartZeros 2 d) ∧
      Wg.ddmmyyyyToISO v
          = (if d.length = 4 then jsTrim v
             else if y.length = 4 then
               y ++ "-" ++ padStartZeros 2 m ++ "-" ++ padStartZeros 2 d
             else jsTrim v)) ∧
    (∀ v, v ≠ "" → isYyyyMmDd (jsTrim v) = false →
      jsIncludes (jsTrim v) '-' = false → jsIncludes (jsTrim v) '/' = false →
      App.ddmmyyyyToISO v = none ∧ Wg.ddmmyyyyToISO v = jsTrim v) ∧
    (∀ v a b, v ≠ "" → isYyyyMmDd (jsTrim v) = false →
      jsIncludes (jsTrim v) '-' = true → jsSplitChar '-' (jsTrim v) = [a, b] →
      App.ddmmyyyyToISO v = none ∧ Wg.ddmmyyyyToISO v = jsTrim v) ∧
    App.ddmmyyyyToISO "" = none ∧ Wg.ddmmyyyyToISO "" = "" := by
  refine ⟨?_, ?_, ?_, ?_, ?_, rfl, rfl⟩
  · intro v hv hiso
    simp [App.ddmmyyyyToISO, Wg.ddmmyyyyToISO, hv, hiso]
  · intro v d m y hv hiso hdash hsplit
    simp [App.ddmmyyyyToISO, Wg.ddmmyyyyToISO, hv, hiso, hdash, hsplit]
  · intro v d m y hv hiso hdash hslash hsplit
    simp [App.ddmmyyyyToISO, Wg.ddmmyyyyToISO, hv, hiso, hdash, hslash, hsplit]
  · intro v hv hiso hdash hslash
    simp [App.ddmmyyyyToISO, Wg.ddmmyyyyToISO, hv, hiso, hdash, hslash]
  · intro v a b hv hiso hdash hsplit
    simp [App.ddmmyyyyToISO, Wg.ddmmyyyyToISO, hv, hiso, hdash, hsplit]

theorem date_only_behaviour_witness :
    App.ddmmyyyyToISO "15-06-1990" = some "1990-06-15" ∧
    Wg.ddmmyyyyToISO "15-06-1990" = "1990-06-15" ∧
    App.ddmmyyyyToISO "5/6/1990" = some "1990-06-05" := by
  have h2 := date_only_behaviour.2.1 "15-06-1990" "15" "06" "1990"
    (by decide) (by decide) (by decide) (by decide)
  have h3 := date_only_behaviour.2.2.1 "5/6/1990" "5" "6" "1990"
    (by decide) (by decide) (by decide) (by decide) (by decide)
  refine ⟨?_, ?_, ?_⟩
  · simpa using h2.1
  · simpa using h2.2
  · simpa using h3.1

/-- First-letter gender classification in the amended claim's words:
classify a non-empty value by its first letter, case-insensitively, into
the closed set, with `"unknown"` as fallback; the empty input yields `""`
(not `"unknown"`). -/
def mapGenderFirstLetter (g : String) : String :=
  match g.data.head? with
  | none => ""
  | some ch =>
    if ch.toLower = 'm' then "male"
    else if ch.toLower = 'f' then "female"
    else if ch.toLower = 'o' then "other"
    else "unknown"

/-- C6 (counterexample): the immunization app's subject builder does not
first-letter-classify gender — it only lowercases, so the §8 subject with
gender `"F"` appears in its output Patient resource with gender `"f"`,
not `"female"`; and `mapGender` maps the empty input to `""`, not
`"unknown"`. -/
theorem gender_not_first_letter_in_app :
    (App.buildPatientResource ashaRoster "" "pid-1").gender = some "f" ∧
    (App.buildPatientResource ashaRoster "" "pid-1").gender ≠ some "female" ∧
    Wg.mapGender "" = "" ∧ "" ≠ "unknown" := by
  exact ⟨by decide, by decide, rfl, by decide⟩

/-- C6 (amended): the diagnostic-report app's `mapGender` is exactly
case-insensitive first-letter classification into
{male, female, other, unknown} for non-empty input (empty input gives
`""`); its patient pipeline routes the roster gender through `mapGender`,
so the §8 subject with gender `"F"` reaches its Patient resource as
`"female"`; the immunization app's subject builder instead lowercases the
raw value ( `"F"` ↦ `"f"` ). -/
theorem gender_behaviour :
    (∀ g, Wg.mapGender g = mapGenderFirstLetter g) ∧
    (∀ g, g ≠ "" →
      Wg.mapGender g ∈ (["male", "female", "other", "unknown"] : List String)) ∧
    (∀ p abha pid, (App.buildPatientResource p abha pid).gender
        = (if p.gender ≠ "" then some (jsToLowerCase p.gender) else none)) ∧
    (Wg.wgPatientFromRoster ashaRoster).gender = "female" ∧
    (App.buildPatientResource ashaRoster "" "pid-1").gender = some "f" := by
  have h1 : ∀ g, Wg.mapGender g = mapGenderFirstLetter g := by
    intro g
    cases g with
    | mk data =>
      cases data with
      | nil => rfl
      | cons c cs =>
        have hne : String.mk (c :: cs) ≠ "" := fun h => by
          simpa using congrArg String.data h
        simp only [Wg.mapGender, mapGenderFirstLetter, if_neg hne, jsToLowerCase,
          strHead, List.map, List.head?]
        by_cases h1 : c.toLower = 'm' <;> by_cases h2 : c.toLower = 'f' <;>
          by_cases h3 : c.toLower = 'o' <;> simp [h1, h2, h3]
  refine ⟨h1, ?_, ?_, rfl, by decide⟩
  · intro g hg
    rw [h1 g]
    unfold mapGenderFirstLetter
    match hd : g.data.head? with
    | none =>
      exfalso
      apply hg
      cases g with
      | mk data =>
        cases data with
        | nil => rfl
        | cons c cs => simp at hd
    | some c => simp only []; split_ifs <;> simp
  · intro p abha pid
    rfl

theorem gender_behaviour_witness :
    Wg.mapGender "Female" = mapGenderFirstLetter "Female" ∧
    "Zzz" ≠ "" ∧ Wg.mapGender "Zzz" ∈ (["male", "female", "other", "unknown"] : List String) :=
  ⟨gender_behaviour.1 "Female",
   by decide, gender_behaviour.2.1 "Zzz" (by decide)⟩

set_option maxRecDepth 100000 in
/-- C9 (code bug): the narrative synthesizer interpolates user text into
the markup verbatim, with no escaping: a title containing `<` (here
`"a<b"`) yields a structurally broken fragment, and likewise in the
diagnostic-report file.  Benign text stays well-formed. -/
theorem narrative_markup_breakage :
    wellFormedFragment
      (App.buildNarrative "Patient" "<p>Asha Singh</p><p>F 15-06-1990</p>").div = true ∧
    (App.buildNarrative "a<b" "").div
      = "<div xmlns=\"http://www.w3.org/1999/xhtml\" lang=\"en-IN\" xml:lang=\"en-IN\"><h3>a<b</h3></div>" ∧
    wellFormedFragment (App.buildNarrative "a<b" "").div = false ∧
    wellFormedFragment (Wg.buildNarrative "x</h3><p>" "") = false := by
  exact ⟨by decide, rfl, by decide, by decide⟩

theorem abhaLe_trans (a b c : AbhaOut) (hab : abhaLe a b = true)
    (hbc : abhaLe b c = true) : abhaLe a c = true := by
  unfold abhaLe at *
  cases ha : a.primary <;> cases hb : b.primary <;> cases hc : c.primary <;>
    simp_all <;> exact le_trans hab hbc

theorem abhaLe_total (a b : AbhaOut) : (abhaLe a b || abhaLe b a) = true := by
  unfold abhaLe
  by_cases h : a.primary = b.primary
  · rw [if_neg (by simpa using h), if_neg (by simp only [ne_eq, Decidable.not_not]; exact h.symm)]
    simp only [Bool.or_eq_true, decide_eq_true_eq]
    exact le_total a.value b.value
  · cases ha : a.primary <;> cases hb : b.primary <;> simp_all

/-- `JSON.stringify` of a normalized `{value, label, primary}` object
(escape-free field values). -/
def abhaOutJson (o : AbhaOut) : String :=
  "\x7b\"value\":\"" ++ o.value ++ "\",\"label\":\"" ++ o.label ++ "\",\"primary\":"
    ++ (if o.primary then "true" else "false") ++ "\x7d"

/-- A normalized output element, seen again as a raw input element: it is
an object with no `address` field and no `isPrimary` field (it has
`primary` instead), so the normalizer's object branch sees `address`
falsy, `isPrimary` undefined, and would stringify it. -/
def reinjectAbhaOut (o : AbhaOut) : AbhaRaw := .obj none false (abhaOutJson o)

/-- C8 (counterexample): feeding an already-normalized output back through
the normalizer does not return it unchanged.  A normalized element has
`value`/`label`/`primary` fields, not `address`/`isPrimary`, so the object
branch re-serializes it to JSON text: the output `[{value := "x@abdm", …}]`
renormalizes to a list whose single value is the JSON string, not
`"x@abdm"`. -/
theorem abha_renormalize_counterexample :
    normalizeAbhaAddresses ⟨none, some [.str "x@abdm"]⟩
      = [⟨"x@abdm", "x@abdm", false⟩] ∧
    normalizeAbhaAddresses
        ⟨none, some ((normalizeAbhaAddresses ⟨none, some [.str "x@abdm"]⟩).map
          reinjectAbhaOut)⟩
      = [⟨abhaOutJson ⟨"x@abdm", "x@abdm", false⟩,
          abhaOutJson ⟨"x@abdm", "x@abdm", false⟩, false⟩] ∧
    normalizeAbhaAddresses
        ⟨none, some ((normalizeAbhaAddresses ⟨none, some [.str "x@abdm"]⟩).map
          reinjectAbhaOut)⟩
      ≠ normalizeAbhaAddresses ⟨none, some [.str "x@abdm"]⟩ := by
  refine ⟨by simp [normalizeAbhaAddresses], ?_, ?_⟩
  · simp [normalizeAbhaAddresses, reinjectAbhaOut]
  · simp only [normalizeAbhaAddresses, List.filterMap, List.map]
    simp [reinjectAbhaOut, abhaOutJson]

/-- C8 (amended): the normalized list is ordered with every
primary-flagged element before every non-primary one and ties (equal
flags) ordered by value, and the sort phase is idempotent — re-sorting an
already-normalized list returns it unchanged.  (Full renormalization of an
output is not the identity; see the counterexample.) -/
theorem abha_sort_order (p : AbhaPatient) :
    (normalizeAbhaAddresses p).Pairwise
      (fun a b => (b.primary = true → a.primary = true) ∧
                  (a.primary = b.primary → a.value ≤ b.value)) ∧
    (normalizeAbhaAddresses p).mergeSort abhaLe = normalizeAbhaAddresses p := by
  have hs := @List.sorted_mergeSort _ abhaLe
    (fun a b c => abhaLe_trans a b c) (fun a b => abhaLe_total a b)
  constructor
  · unfold normalizeAbhaAddresses
    refine (hs _).imp ?_
    intro a b hab
    unfold abhaLe at hab
    constructor
    · intro hbp
      by_cases hpq : a.primary = b.primary
      · rw [hpq]; exact hbp
      · simp only [if_pos (by simpa using hpq)] at hab; simpa using hab
    · intro hpq
      rw [if_neg (by simpa using hpq)] at hab
      simpa using hab
  · exact List.mergeSort_of_sorted (hs _)

def exceptIsOk {ε α : Type} : Except ε α → Bool
  | .ok _ => true
  | .error _ => false

/-- A diagnostic-report input whose required fields are all present but
whose title is blank. -/
def wgInpBlankTitle : Wg.WgInput :=
  ⟨⟨"prac-9", "Dr. ABC", "LIC-TEMP-0001"⟩,
   ⟨"Asha Singh", "M1", "1990-06-15", "female", ""⟩,
   "", "final", "LAB", "CBC", "", "2024-01-02", "", "",
   [⟨"r1", "Hemoglobin", "", "13.5 g/dL"⟩], [⟨"s1", "Blood sample"⟩], []⟩

/-- A diagnostic-report input violating two checks at once (practitioner
name and test code). -/
def wgInpTwoBad : Wg.WgInput :=
  ⟨⟨"prac-9", "", "LIC-TEMP-0001"⟩,
   ⟨"Asha Singh", "M1", "1990-06-15", "female", ""⟩,
   "Laboratory report", "final", "LAB", "", "", "2024-01-02", "", "",
   [⟨"r1", "Hemoglobin", "", "13.5 g/dL"⟩], [⟨"s1", "Blood sample"⟩], []⟩

/-- An immunization-builder input violating all four gate conditions. -/
def inpAllBad : App.BuildInput :=
  ⟨none, "", 0, "", "", "", "", "", [], "", "", []⟩

/-- C2 (counterexample): read over the whole program, the gate claim is
false for the diagnostic-report builder: with every required field present
but a blank title, its build succeeds (the claim says a blank title must
fail the build), and with two violations at once it throws only the first
message (the claim says all violations are reported together). -/
theorem wg_gate_counterexample :
    wgInpBlankTitle.title = "" ∧
    exceptIsOk (Wg.buildBundle env0 ids0 wgInpBlankTitle) = true ∧
    wgInpTwoBad.practitioner.name = "" ∧ wgInpTwoBad.diagCodeText = "" ∧
    Wg.buildBundle env0 ids0 wgInpTwoBad
      = .error "Practitioner name and license required." := by
  refine ⟨rfl, rfl, rfl, rfl, rfl⟩

/-- The immunization gate passes (empty error list) iff all four claim
conditions hold. -/
theorem validate_empty_iff (inp : App.BuildInput) :
    (App.validateBeforeBuild inp).isEmpty = true ↔
      (inp.selectedPatient.isSome = true ∧ inp.status ≠ "" ∧
       ¬(inp.title = "" ∨ jsTrim inp.title = "") ∧
       (App.hasImmsB inp.immunizations = true
        ∨ (inp.immRecText ≠ "" ∧ jsTrim inp.immRecText ≠ "")
        ∨ inp.files ≠ [])) := by
  unfold App.validateBeforeBuild
  split_ifs <;>
    simp_all [Option.isNone_iff_eq_none, Option.isSome_iff_ne_none,
      List.isEmpty_iff, Bool.not_eq_false, Bool.not_eq_true] <;> (try tauto) <;>
    (cases hb : App.hasImmsB inp.immunizations <;> simp_all <;> tauto)

/-- C2 (amended): the immunization builder's gate behaves exactly as the
claim says — a build produces a bundle iff a subject is selected, a
status is chosen, the title is not blank, and there is linkable content
(a clinical entry with non-empty trimmed key text, recommendation text,
or an attachment); each violated condition contributes its message to the
single aggregated error list, and a fully-violating input reports all
four messages together (while a complete input with one non-empty
clinical entry builds successfully).  The diagnostic-report builder,
however, checks its own four required-field conditions and throws only
the first failing message. -/
theorem build_gate_behaviour :
    (∀ env ids inp, (App.onBuildBundle env ids inp).isSome = true ↔
      (inp.selectedPatient.isSome = true ∧ inp.status ≠ "" ∧
       ¬(inp.title = "" ∨ jsTrim inp.title = "") ∧
       (App.hasImmsB inp.immunizations = true
        ∨ (inp.immRecText ≠ "" ∧ jsTrim inp.immRecText ≠ "")
        ∨ inp.files ≠ []))) ∧
    (∀ inp : App.BuildInput,
      ("Select a patient (required)." ∈ App.validateBeforeBuild inp
        ↔ inp.selectedPatient = none) ∧
      ("Status is required." ∈ App.validateBeforeBuild inp ↔ inp.status = "") ∧
      ("Title is required." ∈ App.validateBeforeBuild inp
        ↔ (inp.title = "" ∨ jsTrim inp.title = "")) ∧
      ("Add at least one immunization, or an immunization recommendation, or upload at least one document."
          ∈ App.validateBeforeBuild inp
        ↔ ¬(App.hasImmsB inp.immunizations = true
            ∨ (inp.immRecText ≠ "" ∧ jsTrim inp.immRecText ≠ "")
            ∨ inp.files ≠ []))) ∧
    App.validateBeforeBuild inpAllBad
      = ["Select a patient (required).", "Status is required.", "Title is required.",
         "Add at least one immunization, or an immunization recommendation, or upload at least one document."] ∧
    (App.onBuildBundle env0 ids0 inp0).isSome = true ∧
    (∀ env ids inp, exceptIsOk (Wg.buildBundle env ids inp) = true ↔
      (inp.practitioner.name ≠ "" ∧ inp.practitioner.license ≠ "" ∧
       inp.patient.name ≠ "" ∧ inp.patient.mrn ≠ "" ∧ inp.patient.gender ≠ "" ∧
       inp.diagCodeText ≠ "" ∧ inp.issuedDate ≠ "")) ∧
    (∀ env ids inp, (inp.practitioner.name = "" ∨ inp.practitioner.license = "") →
      Wg.buildBundle env ids inp = .error "Practitioner name and license required.") := by
  refine ⟨?_, ?_, rfl, rfl, ?_, ?_⟩
  · intro env ids inp
    unfold App.onBuildBundle
    by_cases h : (App.validateBeforeBuild inp).isEmpty
    · rw [if_pos h]
      have h2 := (validate_empty_iff inp).mp h
      constructor
      · intro _; exact h2
      · intro _
        obtain ⟨hp, _⟩ := h2
        cases hq : inp.selectedPatient with
        | none => rw [hq] at hp; simp at hp
        | some p => rfl
    · rw [if_neg h]
      constructor
      · intro hfalse; simp at hfalse
      · intro hcontra; exact absurd ((validate_empty_iff inp).mpr hcontra) h
  · intro inp
    refine ⟨?_, ?_, ?_, ?_⟩ <;>
      (unfold App.validateBeforeBuild; split_ifs <;> simp_all <;> tauto)
  · intro env ids inp
    unfold Wg.buildBundle
    split_ifs with hh1 hh2 hh3 hh4 <;> simp_all [exceptIsOk] <;> tauto
  · intro env ids inp h
    unfold Wg.buildBundle
    rw [if_pos h]

theorem build_gate_behaviour_witness :
    (App.onBuildBundle env0 ids0 inp0).isSome = true ∧
    Wg.buildBundle env0 ids0 wgInpTwoBad
      = .error "Practitioner name and license required." :=
  ⟨(build_gate_behaviour.1 env0 ids0 inp0).mpr
    ⟨rfl, by decide, by decide, Or.inl (by decide)⟩,
   build_gate_behaviour.2.2.2.2.2 env0 ids0 wgInpTwoBad (Or.inl rfl)⟩

/-- A successful `onBuildBundle` run is `mkBundle` for the selected
patient. -/
theorem onBuildBundle_some (env : JsEnv) (ids : Nat → String)
    (inp : App.BuildInput) (b : App.Bundle)
    (h : App.onBuildBundle env ids inp = some b) :
    ∃ p, inp.selectedPatient = some p ∧ b = App.mkBundle env ids inp p := by
  unfold App.onBuildBundle at h
  split_ifs at h
  cases hq : inp.selectedPatient with
  | none => rw [hq] at h; simp at h
  | some p =>
    rw [hq] at h
    simp only [Option.map_some'] at h
    exact ⟨p, rfl, (Option.some.injEq _ _ ▸ h).symm⟩

/-- A successful `buildBundle` run is `wgMkBundle`. -/
theorem wgBuildBundle_ok (env : JsEnv) (ids : Nat → String)
    (inp : Wg.WgInput) (b : Wg.WgBundle)
    (h : Wg.buildBundle env ids inp = Except.ok b) :
    b = Wg.wgMkBundle env ids inp := by
  unfold Wg.buildBundle at h
  split_ifs at h <;> simp_all

/-- C3: in every produced bundle the entry list follows the fixed order:
composition, subject, author, [encounter], [custodian], the clinical-fact
resources in input order, [recommendation], result resources, specimen
resources, attachment-pointer resources, attachment-binary resources.
For the immunization builder the clinical facts are the Immunization
resources (their vaccine texts appear in form order; no result/specimen
resources exist) followed by DocumentReference then Binary entries; for
the diagnostic-report builder the clinical fact is the DiagnosticReport,
followed by Observations, Specimens and DocumentReferences (attachments
are embedded, so there are no Binary entries). -/
theorem bundle_entry_order :
    (∀ env ids inp b, App.onBuildBundle env ids inp = some b →
      b.entry.map (fun en => en.resource.rtype)
        = ["Composition", "Patient", "Practitioner"]
          ++ (if inp.encounterText ≠ "" then ["Encounter"] else [])
          ++ (if inp.custodianName ≠ "" then ["Organization"] else [])
          ++ List.replicate inp.immunizations.length "Immunization"
          ++ (if inp.immRecText ≠ "" then ["ImmunizationRecommendation"] else [])
          ++ List.replicate (if inp.files.isEmpty then 1 else inp.files.length)
              "DocumentReference"
          ++ List.replicate (if inp.files.isEmpty then 1 else inp.files.length)
              "Binary" ∧
      b.entry.filterMap (fun en => match en.resource with
          | App.Res.immunization ir => some ir.vaccineCodeText
          | _ => none)
        = inp.immunizations.map
            (fun m => if m.vaccineText ≠ "" then m.vaccineText else "Unknown vaccine")) ∧
    (∀ env ids inp b, Wg.buildBundle env ids inp = Except.ok b →
      b.entry.map (fun en => en.resource.rtype)
        = ["Composition", "Patient", "Practitioner", "DiagnosticReport"]
          ++ List.replicate inp.results.length "Observation"
          ++ List.replicate inp.specimens.length "Specimen"
          ++ List.replicate inp.attachments.length "DocumentReference") := by
  constructor
  · intro env ids inp b h
    obtain ⟨p, hp, hb⟩ := onBuildBundle_some env ids inp b h
    subst hb
    constructor
    · by_cases he : inp.encounterText = "" <;> by_cases hc : inp.custodianName = "" <;>
        by_cases hr : inp.immRecText = "" <;> by_cases hf : inp.files.isEmpty <;>
        simp [App.mkBundle, App.buildEncounterResource, App.buildCustodianOrg,
          App.buildImmRecResource, App.buildImmunizationResources,
          App.buildDocAndBinaryResources, App.Res.rtype, he, hc, hr, hf,
          List.map_map, Function.comp_def, List.map_const', List.enum_length]
    · have key : ∀ l : List App.ImmForm,
          List.filterMap (fun x : Nat × App.ImmForm =>
            some (if x.2.vaccineText = "" then "Unknown vaccine" else x.2.vaccineText)) l.enum
          = List.map (fun m : App.ImmForm =>
              if m.vaccineText = "" then "Unknown vaccine" else m.vaccineText) l := by
        intro l
        rw [show (fun x : Nat × App.ImmForm =>
              some (if x.2.vaccineText = "" then "Unknown vaccine" else x.2.vaccineText))
            = some ∘ ((fun m : App.ImmForm =>
                if m.vaccineText = "" then "Unknown vaccine" else m.vaccineText) ∘ Prod.snd)
            from rfl,
          List.filterMap_eq_map, ← List.map_map, List.enum_map_snd]
      by_cases he : inp.encounterText = "" <;> by_cases hc : inp.custodianName = "" <;>
        by_cases hr : inp.immRecText = "" <;> by_cases hf : inp.files.isEmpty <;>
        simp [App.mkBundle, App.buildEncounterResource, App.buildCustodianOrg,
          App.buildImmRecResource, App.buildImmunizationResources,
          App.buildDocAndBinaryResources, he, hc, hr, hf,
          List.filterMap_append, List.filterMap_map, Function.comp_def,
          List.map_map, key]
  · intro env ids inp b h
    have hb := wgBuildBundle_ok env ids inp b h
    subst hb
    simp [Wg.wgMkBundle, Wg.WgRes.rtype, List.map_map, Function.comp_def,
      List.map_const', List.enum_length]

/-- The §8-scenario bundle, used as a concrete witness input. -/
def bundle0 : App.Bundle :=
  (App.onBuildBundle env0 ids0 inp0).getD ⟨"", [], "", ⟨"", ""⟩, "", "", []⟩

/-- The concrete diagnostic-report bundle for `wgInpBlankTitle`. -/
def wgBundle0 : Wg.WgBundle :=
  (Wg.buildBundle env0 ids0 wgInpBlankTitle).toOption.getD
    ⟨"", "", "", [], ⟨"", ""⟩, "", "", []⟩

theorem bundle_entry_order_witness :
    App.onBuildBundle env0 ids0 inp0 = some bundle0 ∧
    bundle0.entry.map (fun en => en.resource.rtype)
      = ["Composition", "Patient", "Practitioner", "Immunization",
         "DocumentReference", "Binary"] ∧
    Wg.buildBundle env0 ids0 wgInpBlankTitle = Except.ok wgBundle0 ∧
    wgBundle0.entry.map (fun en => en.resource.rtype)
      = ["Composition", "Patient", "Practitioner", "DiagnosticReport",
         "Observation", "Specimen"] := by
  refine ⟨rfl, ?_, rfl, ?_⟩
  · have h := (bundle_entry_order.1 env0 ids0 inp0 bundle0 rfl).1
    simpa [inp0] using h
  · have h := bundle_entry_order.2 env0 ids0 wgInpBlankTitle wgBundle0 rfl
    simpa [wgInpBlankTitle] using h

/-- Checks that a resource is a Composition whose every section carries a
non-empty entry list and no fallback narrative. -/
def compSectionNonEmpty (r : App.Res) : Bool :=
  match r with
  | .composition comp =>
    comp.sections.all (fun sec => sec.text.isNone &&
      (match sec.entry with | some es => !es.isEmpty | none => false))
  | _ => false

/-- C10: in every bundle produced by a successful build, the first entry
is the Composition and its section entry list is non-empty with no
fallback "No immunization entries" narrative: the attachment stage always
emits at least one DocumentReference (a placeholder pair when no files
are uploaded), and every DocumentReference contributes a section entry,
so the fallback branch of `buildComposition` is unreachable. -/
theorem composition_section_nonempty (env : JsEnv) (ids : Nat → String)
    (inp : App.BuildInput) (b : App.Bundle)
    (h : App.onBuildBundle env ids inp = some b) :
    b.entry ≠ [] ∧
    b.entry.head?.map (fun en => compSectionNonEmpty en.resource) = some true := by
  obtain ⟨p, hp, hb⟩ := onBuildBundle_some env ids inp b h
  subst hb
  constructor
  · simp [App.mkBundle]
  · by_cases hf : inp.files = []
    · simp [App.mkBundle, compSectionNonEmpty, App.buildComposition,
        App.buildDocAndBinaryResources, hf, List.isEmpty_iff,
        List.append_eq_nil]
    · obtain ⟨a, l, hfl⟩ := List.exists_cons_of_ne_nil hf
      simp [App.mkBundle, compSectionNonEmpty, App.buildComposition,
        App.buildDocAndBinaryResources, hfl, List.isEmpty_iff,
        List.append_eq_nil]

theorem composition_section_nonempty_witness :
    App.onBuildBundle env0 ids0 inp0 = some bundle0 ∧
    bundle0.entry ≠ [] ∧
    bundle0.entry.head?.map (fun en => compSectionNonEmpty en.resource) = some true :=
  ⟨rfl, (composition_section_nonempty env0 ids0 inp0 bundle0 rfl).1,
   (composition_section_nonempty env0 ids0 inp0 bundle0 rfl).2⟩

theorem filterMap_const_none {α β : Type} (l : List α) :
    List.filterMap (fun _ => (none : Option β)) l = [] := by
  induction l with
  | nil => rfl
  | cons a tl ih => simpa using ih

/-- C7: a successful build with zero uploaded files contains exactly one
attachment-binary entry and exactly one attachment-pointer entry — the
binary carries the fixed placeholder PDF payload, the pointer's single
attachment is the placeholder (PDF content type, "placeholder.pdf"
title), and the pointer's attachment URLs are exactly the `urn:uuid:`
locators of the binary entries. -/
theorem placeholder_pair (env : JsEnv) (ids : Nat → String)
    (inp : App.BuildInput) (b : App.Bundle)
    (h : App.onBuildBundle env ids inp = some b) (hf : inp.files = []) :
    b.entry.countP (fun en => en.resource.rtype == "Binary") = 1 ∧
    b.entry.countP (fun en => en.resource.rtype == "DocumentReference") = 1 ∧
    b.entry.filterMap (fun en => match en.resource with
        | App.Res.binary bb => some (bb.contentType, bb.dataB64)
        | _ => none)
      = [("application/pdf", App.PLACEHOLDER_PDF_B64)] ∧
    (b.entry.filterMap (fun en => match en.resource with
        | App.Res.docRef dd => some (dd.content.map (fun at' => (at'.contentType, at'.title)))
        | _ => none)).flatten
      = [("application/pdf", "placeholder.pdf")] ∧
    (b.entry.filterMap (fun en => match en.resource with
        | App.Res.docRef dd => some (dd.content.map (fun at' => at'.url))
        | _ => none)).flatten
      = b.entry.filterMap (fun en => match en.resource with
        | App.Res.binary bb => some ("urn:uuid:" ++ bb.id)
        | _ => none) := by
  obtain ⟨p, hp, hb⟩ := onBuildBundle_some env ids inp b h
  subst hb
  refine ⟨?_, ?_, ?_, ?_, ?_⟩ <;>
    (by_cases he : inp.encounterText = "" <;> by_cases hc : inp.custodianName = "" <;>
      by_cases hr : inp.immRecText = "" <;>
      simp [App.mkBundle, App.buildEncounterResource, App.buildCustodianOrg,
        App.buildImmRecResource, App.buildImmunizationResources,
        App.buildDocAndBinaryResources, App.Res.rtype, he, hc, hr, hf,
        List.countP_append, List.countP_map, Function.comp_def,
        List.filterMap_append, List.filterMap_map, List.countP_eq_zero,
        filterMap_const_none])

theorem placeholder_pair_witness :
    App.onBuildBundle env0 ids0 inp0 = some bundle0 ∧ inp0.files = [] ∧
    bundle0.entry.countP (fun en => en.resource.rtype == "Binary") = 1 ∧
    bundle0.entry.countP (fun en => en.resource.rtype == "DocumentReference") = 1 :=
  ⟨rfl, rfl, (placeholder_pair env0 ids0 inp0 bundle0 rfl rfl).1,
   (placeholder_pair env0 ids0 inp0 bundle0 rfl rfl).2.1⟩

theorem urn_append_injective :
    Function.Injective (fun t : String => "urn:uuid:" ++ t) := by
  intro a b h
  cases a with
  | mk da =>
    cases b with
    | mk db =>
      have h2 : ("urn:uuid:" : String).data ++ da = ("urn:uuid:" : String).data ++ db :=
        congrArg String.data h
      exact congrArg String.mk (List.append_cancel_left h2)

/-- The positions, in the `uuidv4` call sequence, of the identifiers that
end up as entry identifiers of a built immunization bundle, in entry-list
order: composition, patient, practitioner, [encounter], [custodian],
`n` immunizations, [recommendation], `f` document references, `f`
binaries. -/
def segIdx (P1 P2 P3 : Prop) [Decidable P1] [Decidable P2] [Decidable P3]
    (n f : Nat) : List Nat :=
  [0, 1, 2]
    ++ (if P1 then [3] else [])
    ++ (if P2 then [3 + (if P1 then 1 else 0)] else [])
    ++ (List.range n).map (fun k => 3 + (if P1 then 1 else 0) + (if P2 then 1 else 0) + k)
    ++ (if P3 then [3 + (if P1 then 1 else 0) + (if P2 then 1 else 0) + n] else [])
    ++ (List.range f).map (fun i =>
        3 + (if P1 then 1 else 0) + (if P2 then 1 else 0) + n
          + (if P3 then 1 else 0) + f + i)
    ++ (List.range f).map (fun i =>
        3 + (if P1 then 1 else 0) + (if P2 then 1 else 0) + n
          + (if P3 then 1 else 0) + i)

theorem nodup_range_map_add (a n : Nat) :
    ((List.range n).map (fun k => a + k)).Nodup :=
  List.Nodup.map (fun x y h => by omega) (List.nodup_range n)

theorem segIdx_nodup (P1 P2 P3 : Prop) [Decidable P1] [Decidable P2] [Decidable P3]
    (n f : Nat) : (segIdx P1 P2 P3 n f).Nodup := by
  unfold segIdx
  split_ifs <;>
    simp [List.nodup_append, List.disjoint_left, List.forall_mem_append,
      List.mem_map, List.mem_range, List.mem_cons, List.mem_singleton,
      not_exists, nodup_range_map_add] <;>
    (repeat' (first | apply And.intro | intro h)) <;>
    omega

theorem exists_offset_iff (a n t : Nat) :
    (∃ k, k < n ∧ a + k = t) ↔ a ≤ t ∧ t < a + n := by
  constructor
  · rintro ⟨k, hk, rfl⟩
    omega
  · intro h'
    exact ⟨t - a, by omega, by omega⟩

theorem segIdx_mem (P1 P2 P3 : Prop) [Decidable P1] [Decidable P2] [Decidable P3]
    (n f t : Nat)
    (ht : t < 3 + (if P1 then 1 else 0) + (if P2 then 1 else 0) + n
        + (if P3 then 1 else 0) + 2 * f) :
    t ∈ segIdx P1 P2 P3 n f := by
  unfold segIdx
  split_ifs at ht ⊢ <;>
    simp [List.mem_append, List.mem_map, List.mem_range, exists_offset_iff] <;>
    omega

theorem enum_eq_nil_iff {α : Type} (l : List α) : List.enum l = [] ↔ l = [] :=
  @List.enumFrom_eq_nil α 0 l

theorem countP_map_eq_one_of_nodup {α β : Type} [BEq β] [LawfulBEq β]
    (g : α → β) (hg : Function.Injective g) :
    ∀ (l : List α), l.Nodup → ∀ t ∈ l,
      (l.map g).countP (fun s => s == g t) = 1 := by
  intro l
  induction l with
  | nil =>
    intro _ t ht
    cases ht
  | cons a tl ih =>
    intro hnd t ht
    have hal := List.nodup_cons.mp hnd
    rcases List.mem_cons.mp ht with rfl | htl
    · have h0 : (tl.map g).countP (fun s => s == g t) = 0 := by
        rw [List.countP_eq_zero]
        intro s hs
        obtain ⟨u, hu, rfl⟩ := List.mem_map.mp hs
        simp only [beq_iff_eq]
        intro heq
        exact hal.1 (hg heq ▸ hu)
      simp [List.countP_cons, h0]
    · have h0 : ¬((fun s => s == g t) (g a) = true) := by
        simp only [beq_iff_eq]
        intro heq
        exact hal.1 (by rw [hg heq]; exact htl)
      simp [List.countP_cons, h0, ih hal.2 t htl]

set_option maxHeartbeats 1600000 in
/-- C1: referential closure of the produced immunization bundle.  For every
bundle returned by a successful build (with an injective `uuidv4` supply):
every entry's `fullUrl` is `urn:uuid:` followed by its own resource's id;
the entry resource ids are pairwise distinct; and every reference string
embedded in any resource (Composition subject/encounter/author/custodian
and section entries, Encounter subject, Immunization patient,
recommendation patient, DocumentReference subject and attachment urls)
resolves to the `fullUrl` of exactly one entry of the bundle. -/
theorem immunization_bundle_referential_closure (env : JsEnv) (ids : Nat → String)
    (inp : App.BuildInput) (b : App.Bundle)
    (hinj : Function.Injective ids)
    (h : App.onBuildBundle env ids inp = some b) :
    (∀ en ∈ b.entry, en.fullUrl = "urn:uuid:" ++ en.resource.rid) ∧
    (b.entry.map (fun en => en.resource.rid)).Nodup ∧
    (∀ en ∈ b.entry, ∀ ref ∈ en.resource.refs,
      b.entry.countP (fun e2 => e2.fullUrl == ref) = 1) := by
  obtain ⟨p, hp, hb⟩ := onBuildBundle_some env ids inp b h
  subst hb
  have henum : ∀ (a : Nat) (l : List App.ImmForm),
      List.map (fun x : Nat × App.ImmForm => ids (a + x.1)) l.enum
        = List.map (fun k => ids (a + k)) (List.range l.length) := by
    intro a l
    rw [show (fun x : Nat × App.ImmForm => ids (a + x.1))
          = (fun k => ids (a + k)) ∘ Prod.fst from rfl,
      ← List.map_map, List.enum_map_fst]
  have henumF : ∀ (a : Nat) (l : List (Option App.FileRec)),
      List.map (fun x : Nat × Option App.FileRec => ids (a + x.1)) l.enum
        = List.map (fun k => ids (a + k)) (List.range l.length) := by
    intro a l
    rw [show (fun x : Nat × Option App.FileRec => ids (a + x.1))
          = (fun k => ids (a + k)) ∘ Prod.fst from rfl,
      ← List.map_map, List.enum_map_fst]
  have h1 : ∀ en ∈ (App.mkBundle env ids inp p).entry,
      en.fullUrl = "urn:uuid:" ++ en.resource.rid := by
    by_cases he : inp.encounterText = "" <;> by_cases hc : inp.custodianName = "" <;>
      by_cases hr : inp.immRecText = "" <;>
      simp [-List.mem_append, -List.mem_cons, -List.mem_map, -List.mem_singleton,
        App.mkBundle, App.buildEncounterResource, App.buildCustodianOrg,
        App.buildImmRecResource, App.buildImmunizationResources,
        App.buildDocAndBinaryResources, App.Res.rid, he, hc, hr,
        List.forall_mem_append, List.forall_mem_cons, List.forall_mem_map,
        List.forall_mem_enum]
  have hmap : (App.mkBundle env ids inp p).entry.map (fun en => en.resource.rid)
      = (segIdx (inp.encounterText ≠ "") (inp.custodianName ≠ "") (inp.immRecText ≠ "")
          inp.immunizations.length
          (if inp.files.isEmpty then 1 else inp.files.length)).map ids := by
    by_cases he : inp.encounterText = "" <;> by_cases hc : inp.custodianName = "" <;>
      by_cases hr : inp.immRecText = "" <;> by_cases hf : inp.files.isEmpty <;>
      simp [App.mkBundle, App.buildEncounterResource, App.buildCustodianOrg,
        App.buildImmRecResource, App.buildImmunizationResources,
        App.buildDocAndBinaryResources, App.buildComposition,
        App.buildPatientResource, App.buildPractitionerResource,
        App.Res.rid, segIdx, he, hc, hr, hf,
        List.map_append, List.map_map, Function.comp_def, henum, henumF,
        List.range_succ, List.range_zero]
  have hfmap : (App.mkBundle env ids inp p).entry.map (fun en => en.fullUrl)
      = (segIdx (inp.encounterText ≠ "") (inp.custodianName ≠ "") (inp.immRecText ≠ "")
          inp.immunizations.length
          (if inp.files.isEmpty then 1 else inp.files.length)).map
          (fun t => "urn:uuid:" ++ ids t) := by
    have e1 : (App.mkBundle env ids inp p).entry.map (fun en => en.fullUrl)
        = (App.mkBundle env ids inp p).entry.map
            (fun en => "urn:uuid:" ++ en.resource.rid) := List.map_congr_left h1
    rw [e1, show (fun en : App.BundleEntry => "urn:uuid:" ++ en.resource.rid)
          = (fun s => "urn:uuid:" ++ s) ∘ (fun en => en.resource.rid) from rfl,
      ← List.map_map, hmap, List.map_map]
    rfl
  have hg : Function.Injective (fun t : Nat => "urn:uuid:" ++ ids t) := by
    intro a b hab
    exact hinj (urn_append_injective hab)
  have hcount : ∀ t, t < 3 + (if inp.encounterText ≠ "" then 1 else 0)
        + (if inp.custodianName ≠ "" then 1 else 0) + inp.immunizations.length
        + (if inp.immRecText ≠ "" then 1 else 0)
        + 2 * (if inp.files.isEmpty then 1 else inp.files.length) →
      (App.mkBundle env ids inp p).entry.countP
          (fun e2 => e2.fullUrl == "urn:uuid:" ++ ids t) = 1 := by
    intro t ht
    have e2 : (App.mkBundle env ids inp p).entry.countP
          (fun e2 => e2.fullUrl == "urn:uuid:" ++ ids t)
        = ((App.mkBundle env ids inp p).entry.map (fun en => en.fullUrl)).countP
            (fun s => s == "urn:uuid:" ++ ids t) := by
      rw [List.countP_map]
      rfl
    rw [e2, hfmap]
    exact countP_map_eq_one_of_nodup (fun t => "urn:uuid:" ++ ids t) hg _
      (segIdx_nodup _ _ _ _ _) t (segIdx_mem _ _ _ _ _ _ ht)
  have hs : ∀ en ∈ (App.mkBundle env ids inp p).entry, ∀ ref ∈ en.resource.refs,
      ∃ t, t < 3 + (if inp.encounterText ≠ "" then 1 else 0)
          + (if inp.custodianName ≠ "" then 1 else 0) + inp.immunizations.length
          + (if inp.immRecText ≠ "" then 1 else 0)
          + 2 * (if inp.files.isEmpty then 1 else inp.files.length)
        ∧ ref = "urn:uuid:" ++ ids t := by
    rcases eq_or_ne inp.files [] with hf | hf
    · by_cases he : inp.encounterText = "" <;> by_cases hc : inp.custodianName = "" <;>
        by_cases hr : inp.immRecText = "" <;>
        (simp [-List.mem_append, -List.mem_cons, -List.mem_map, -List.mem_singleton,
          -Prod.forall,
          App.mkBundle, App.buildEncounterResource, App.buildCustodianOrg,
          App.buildImmRecResource, App.buildImmunizationResources,
          App.buildDocAndBinaryResources, App.buildComposition,
          App.buildPatientResource, App.buildPractitionerResource, App.Res.refs,
          he, hc, hr, hf, List.forall_mem_append, List.forall_mem_cons,
          List.forall_mem_map, List.forall_mem_enum, List.forall_mem_enumFrom,
          List.mem_range,
          List.isEmpty_iff, List.append_eq_nil, enum_eq_nil_iff] <;>
        (repeat' (first | apply And.intro | intro h')) <;>
        (first | trivial | (refine ⟨_, ?_, rfl⟩ <;> omega)))
    · obtain ⟨a, l, hfl⟩ := List.exists_cons_of_ne_nil hf
      by_cases he : inp.encounterText = "" <;> by_cases hc : inp.custodianName = "" <;>
        by_cases hr : inp.immRecText = "" <;>
        (simp [-List.mem_append, -List.mem_cons, -List.mem_map, -List.mem_singleton,
          -Prod.forall,
          App.mkBundle, App.buildEncounterResource, App.buildCustodianOrg,
          App.buildImmRecResource, App.buildImmunizationResources,
          App.buildDocAndBinaryResources, App.buildComposition,
          App.buildPatientResource, App.buildPractitionerResource, App.Res.refs,
          he, hc, hr, hfl, List.forall_mem_append, List.forall_mem_cons,
          List.forall_mem_map, List.forall_mem_enum, List.forall_mem_enumFrom,
          List.mem_range,
          List.isEmpty_iff, List.append_eq_nil, enum_eq_nil_iff] <;>
        (repeat' (first | apply And.intro | intro h')) <;>
        (first | trivial | (refine ⟨_, ?_, rfl⟩ <;> omega)))
  refine ⟨h1, ?_, ?_⟩
  · rw [hmap]
    exact List.Nodup.map hinj (segIdx_nodup _ _ _ _ _)
  · intro en hen ref href
    obtain ⟨t, ht, rfl⟩ := hs en hen ref href
    exact hcount t ht

theorem immunization_bundle_referential_closure_witness :
    App.onBuildBundle env0 ids0 inp0 = some bundle0 ∧
    ((∀ en ∈ bundle0.entry, en.fullUrl = "urn:uuid:" ++ en.resource.rid) ∧
     (bundle0.entry.map (fun en => en.resource.rid)).Nodup ∧
     (∀ en ∈ bundle0.entry, ∀ ref ∈ en.resource.refs,
       bundle0.entry.countP (fun e2 => e2.fullUrl == ref) = 1)) :=
  ⟨rfl, immunization_bundle_referential_closure env0 ids0 inp0 bundle0 ids0_injective rfl⟩
